import Mathlib

set_option maxRecDepth 16384

/-!
Verification of the GameBoy_C emulator core against its specification.

The definitions below are shallow embeddings of the C sources:
  * src/src/sync.c   -- the cooperative event scheduler
  * src/src/ppu.c    -- the scanline state machine (counters)
  * src/src/cart.c   -- the cartridge memory-bank controllers
  * src/src/hdma.c   -- the HBLANK DMA engine
  * src/src/cpu.c    -- interrupt service and the ALU slices under test
  * src/src/bus.c    -- the memory-mapped IO register file

Machine integers are modelled as Nat or Int with explicit reductions
mod 2^8 / 2^16 / 2^32 at the points where the C code relies on
fixed-width wraparound.  Scheduler timestamps are modelled as
unbounded Int: between two rebases every value stays far below the
32-bit range (the sentinel GB_SYNC_NEVER is 10,000,000), so the C
arithmetic never wraps in a defined execution.
-/

namespace GameBoyC

/-! ### Scheduler (src/src/sync.c, src/headers/sync.h)

The device tokens of enum sync_token, in declaration order:
PPU = 0, DMA = 1, TIMER = 2, CART = 3, SPU = 4 (GB_SYNC_NUM = 5). -/

def GB_SYNC_NEVER : Int := 10000000

def GB_SYNC_PPU : Fin 5 := 0
def GB_SYNC_DMA : Fin 5 := 1
def GB_SYNC_TIMER : Fin 5 := 2
def GB_SYNC_CART : Fin 5 := 3
def GB_SYNC_SPU : Fin 5 := 4

/-- Scheduler state: struct gameboy_sync together with the global
cycle counter gameboy->timestamp that all its operations read. -/
structure SchedState where
  timestamp : Int
  first_event : Int
  last_sync : Fin 5 → Int
  next_event : Fin 5 → Int

/-- Fold of the recompute loop in sync_next: start from next_event[0]
and replace the accumulator whenever a later entry is smaller. -/
def first_event_of (f : Fin 5 → Int) : Int :=
  min (min (min (min (f 0) (f 1)) (f 2)) (f 3)) (f 4)

/-- reset_sync: zero every last_sync and next_event entry, the
timestamp and the cached first_event. -/
def reset_sync : SchedState :=
  { timestamp := 0
    first_event := 0
    last_sync := fun _ => 0
    next_event := fun _ => 0 }

/-- resync_sync: return timestamp - last_sync[token] (the C code
prints a diagnostic when this is negative but still returns it
unchanged) and record the catch-up point. -/
def resync_sync (s : SchedState) (token : Fin 5) : SchedState × Int :=
  let elapsed := s.timestamp - s.last_sync token
  ({ s with last_sync := Function.update s.last_sync token s.timestamp }, elapsed)

/-- sync_next: schedule the token at timestamp + cycles and recompute
the cached first_event by folding over all five entries. -/
def sync_next (s : SchedState) (token : Fin 5) (cycles : Int) : SchedState :=
  let ne := Function.update s.next_event token (s.timestamp + cycles)
  { s with next_event := ne, first_event := first_event_of ne }

/-- rebase_sync: subtract the current timestamp from every stored
date, then zero the timestamp. -/
def rebase_sync (s : SchedState) : SchedState :=
  { timestamp := 0
    first_event := s.first_event - s.timestamp
    last_sync := fun i => s.last_sync i - s.timestamp
    next_event := fun i => s.next_event i - s.timestamp }

/-- cpu_clock_tick as seen by the scheduler: the CPU advances the
global timestamp; no scheduler bookkeeping changes. -/
def advance_timestamp (s : SchedState) (cycles : Int) : SchedState :=
  { s with timestamp := s.timestamp + cycles }

/-- Scheduler states reachable from reset through the scheduler
operations.  check_sync_events itself mutates the scheduler only
through the device handlers it invokes, and those touch it only via
resync_sync and sync_next (plus timestamp advances from nested HDMA
copies), so every state it can produce is covered by the
constructors below. -/
inductive SchedReachable : SchedState → Prop
  | reset : SchedReachable reset_sync
  | resync (s : SchedState) (token : Fin 5) :
      SchedReachable s → SchedReachable (resync_sync s token).1
  | next (s : SchedState) (token : Fin 5) (cycles : Int) :
      SchedReachable s → SchedReachable (sync_next s token cycles)
  | rebase (s : SchedState) :
      SchedReachable s → SchedReachable (rebase_sync s)
  | tick (s : SchedState) (cycles : Int) :
      SchedReachable s → SchedReachable (advance_timestamp s cycles)

/-! ### PPU scanline counters (src/src/ppu.c)

The model carries the register-visible fields of struct gameboy_ppu.
The OAM array, the GBC palette tables and the unused window_line
field are mutated by none of the operations modelled here except
reset_ppu (which zeroes OAM) and the palette IO ports modelled in the
MMIO section below, so the palettes live in ColourPalette and OAM is
omitted.  Drawing and interrupt requests mutate state outside struct
gameboy_ppu and do not feed back into these fields. -/

/-- GBC colour palette table: struct colour_palette. -/
structure ColourPalette where
  colours : Nat → Nat → Nat
  write_index : Nat
  auto_increment : Bool

structure PpuState where
  scroll_x : Nat
  scroll_y : Nat
  lyc_flag : Bool
  mode0_flag : Bool
  mode1_flag : Bool
  mode2_flag : Bool
  master_enable : Bool
  background_enable : Bool
  window_enable : Bool
  sprite_enable : Bool
  tall_sprites : Bool
  background_use_high_tile_map : Bool
  window_use_high_tile_map : Bool
  background_window_use_sprite_tile_set : Bool
  ly : Nat
  lyc : Nat
  background_palette : Nat
  sprite_palette0 : Nat
  sprite_palette1 : Nat
  window_x : Nat
  window_y : Nat
  line_position : Nat
  background_palettes : ColourPalette
  sprite_palettes : ColourPalette

/-- reset_ppu from ppu.c (the OAM zeroing loop touches only the
unmodelled OAM array). -/
def reset_ppu (s : PpuState) : PpuState :=
  { s with
    scroll_x := 0, scroll_y := 0
    lyc_flag := false, mode0_flag := false, mode1_flag := false, mode2_flag := false
    master_enable := true
    background_enable := false, window_enable := false, sprite_enable := false
    tall_sprites := false
    background_use_high_tile_map := false, window_use_high_tile_map := false
    background_window_use_sprite_tile_set := false
    ly := 0, lyc := 0
    background_palette := 0, sprite_palette0 := 0, sprite_palette1 := 0
    window_x := 0, window_y := 0
    line_position := 0 }

/-- get_ppu_mode: VSYNC_START = 144, MODE_2_CYCLES = 80,
MODE_3_END = 252. -/
def get_ppu_mode (s : PpuState) : Nat :=
  if 144 ≤ s.ly then 1
  else if s.line_position < 80 then 2
  else if s.line_position < 252 then 3
  else 0

/-- End-of-line step of the sync_ppu loop: ly++ (uint8), reset
line_position, wrap ly at VTOTAL = 154. -/
def ppu_step_line (s : PpuState) : PpuState :=
  let ly1 := (s.ly + 1) % 256
  let ly2 := if 154 ≤ ly1 then 0 else ly1
  { s with ly := ly2, line_position := 0 }

/-- Catch-up loop of sync_ppu.  line_remaining is the uint16_t value
HTOTAL - line_position recomputed exactly as the C code maintains it
(it recomputes after every full line, when line_position is 0).  The
loop consumes at least one elapsed cycle per iteration whenever
line_position < 456, so running it with fuel = elapsed reproduces the
C while-loop on every state the emulator reaches.  Line drawing, the
STAT/VSYNC interrupt requests and the nested HBLANK HDMA transfer do
not write any field of struct gameboy_ppu and are dropped from this
projection. -/
def sync_ppu_loop : Nat → Nat → PpuState → PpuState
  | 0, _, s => s
  | _ + 1, 0, s => s
  | fuel + 1, e + 1, s =>
      let elapsed := e + 1
      let line_remaining := (456 + 65536 - s.line_position % 65536) % 65536
      if elapsed < line_remaining then
        { s with line_position := (s.line_position + elapsed) % 65536 }
      else
        sync_ppu_loop fuel (elapsed - line_remaining) (ppu_step_line s)

/-- sync_ppu, projected on struct gameboy_ppu.  elapsed is the int32
returned by resync_sync; the while-loop runs only while it is
positive.  When the PPU master enable is off the function merely
reschedules and returns. -/
def sync_ppu (s : PpuState) (elapsed : Int) : PpuState :=
  if s.master_enable = false then s
  else sync_ppu_loop elapsed.toNat elapsed.toNat s

/-- set_lcdc.  e1 and e2 are the elapsed-cycle values fed to the two
internal sync_ppu calls by resync_sync. -/
def set_lcdc (s : PpuState) (e1 e2 : Int) (lcdc : Nat) : PpuState :=
  let s := sync_ppu s e1
  let s := { s with
    background_enable := lcdc.testBit 0
    sprite_enable := lcdc.testBit 1
    tall_sprites := lcdc.testBit 2
    background_use_high_tile_map := lcdc.testBit 3
    background_window_use_sprite_tile_set := lcdc.testBit 4
    window_enable := lcdc.testBit 5
    window_use_high_tile_map := lcdc.testBit 6 }
  let master_enable := lcdc.testBit 7
  if master_enable ≠ s.master_enable then
    let s := { s with master_enable := master_enable }
    let s := if master_enable = false then { s with ly := 0, line_position := 0 } else s
    sync_ppu s e2
  else s

/-- set_lcd_stat.  The previous mode0 selector is sampled before the
first sync; a rising edge forces a second sync. -/
def set_lcd_stat (s : PpuState) (e1 e2 : Int) (stat : Nat) : PpuState :=
  let prev_mode0_flag := s.mode0_flag
  let s := sync_ppu s e1
  let s := { s with
    mode0_flag := stat.testBit 3
    mode1_flag := stat.testBit 4
    mode2_flag := stat.testBit 5
    lyc_flag := stat.testBit 6 }
  if !prev_mode0_flag && s.mode0_flag then sync_ppu s e2 else s

/-- get_lcd_stat (read of register 0xFF41): 0 when the PPU is off,
otherwise mode, the LY = LYC comparator and the four selector bits;
bit 7 is never set. -/
def get_lcd_stat (s : PpuState) : Nat :=
  if s.master_enable = false then 0
  else
    get_ppu_mode s
      ||| (if s.ly = s.lyc then 4 else 0)
      ||| (if s.mode0_flag then 8 else 0)
      ||| (if s.mode1_flag then 16 else 0)
      ||| (if s.mode2_flag then 32 else 0)
      ||| (if s.lyc_flag then 64 else 0)

/-- get_lcdc (read of register 0xFF40): recompose all eight feature
bits. -/
def get_lcdc (s : PpuState) : Nat :=
  (if s.background_enable then 1 else 0)
    ||| (if s.sprite_enable then 2 else 0)
    ||| (if s.tall_sprites then 4 else 0)
    ||| (if s.background_use_high_tile_map then 8 else 0)
    ||| (if s.background_window_use_sprite_tile_set then 16 else 0)
    ||| (if s.window_enable then 32 else 0)
    ||| (if s.window_use_high_tile_map then 64 else 0)
    ||| (if s.master_enable then 128 else 0)

/-- PPU states reachable through the operations named by the claim:
reset_ppu from any prior state, then sync_ppu (the elapsed argument
of the constructors is unrestricted, which subsumes the non-negative
case of the claim), set_lcdc and set_lcd_stat. -/
inductive PpuReachable : PpuState → Prop
  | reset (s : PpuState) : PpuReachable (reset_ppu s)
  | sync (s : PpuState) (e : Int) :
      PpuReachable s → PpuReachable (sync_ppu s e)
  | lcdc (s : PpuState) (e1 e2 : Int) (v : Nat) :
      PpuReachable s → PpuReachable (set_lcdc s e1 e2 v)
  | stat (s : PpuState) (e1 e2 : Int) (v : Nat) :
      PpuReachable s → PpuReachable (set_lcd_stat s e1 e2 v)

/-- Counter bounds the PPU is supposed to maintain. -/
def ppu_counters_ok (s : PpuState) : Prop :=
  s.line_position < 456 ∧ s.ly < 154

/-- Concrete all-zero PPU state, used as a starting point for
witnesses. -/
def ppu0 : PpuState :=
  { scroll_x := 0, scroll_y := 0
    lyc_flag := false, mode0_flag := false, mode1_flag := false, mode2_flag := false
    master_enable := false
    background_enable := false, window_enable := false, sprite_enable := false
    tall_sprites := false
    background_use_high_tile_map := false, window_use_high_tile_map := false
    background_window_use_sprite_tile_set := false
    ly := 0, lyc := 0
    background_palette := 0, sprite_palette0 := 0, sprite_palette1 := 0
    window_x := 0, window_y := 0
    line_position := 0
    background_palettes := ⟨fun _ _ => 0, 0, false⟩
    sprite_palettes := ⟨fun _ _ => 0, 0, false⟩ }

/-! ### Cartridge memory-bank controllers (src/src/cart.c)

The model carries struct gameboy_cart with the ROM and RAM images as
maps from offsets to byte values; the save-file path is reduced to
its null test and the RTC substate is not needed by the claims below
(latch_rtc and write_rtc mutate only struct gameboy_rtc). -/

inductive CartModel where
  | simple
  | mbc1
  | mbc2
  | mbc3
  | mbc5
deriving DecidableEq

def GB_ROM_BANK_SIZE : Nat := 16 * 1024
def GB_RAM_BANK_SIZE : Nat := 8 * 1024
def CPU_FREQUENCY_HZ : Nat := 4194304

structure CartState where
  rom : Nat → Nat
  rom_length : Nat
  rom_banks : Nat
  current_rom_bank : Nat
  ram : Nat → Nat
  ram_length : Nat
  ram_banks : Nat
  current_ram_bank : Nat
  ram_write_protected : Bool
  model : CartModel
  mbc1_bank_ram : Bool
  save_file : Bool
  write_ram_flag : Bool
  has_rtc : Bool

/-- read_cart_rom.  current_rom_bank and the offset arithmetic are C
unsigned (32-bit) values, so every subtraction and product is reduced
mod 2^32; in particular (bank - 1) wraps around when bank is 0. -/
def read_cart_rom (s : CartState) (address : Nat) : Nat :=
  match s.model with
  | CartModel.simple => s.rom address
  | CartModel.mbc1 =>
      if GB_ROM_BANK_SIZE ≤ address then
        let bank := s.current_rom_bank
        let bank := if s.mbc1_bank_ram then bank % 32 else bank % 128
        let bank := if bank = 0 then 1 else bank
        let bank := bank % s.rom_banks
        s.rom ((address + ((bank + 4294967296 - 1) % 4294967296) * GB_ROM_BANK_SIZE) % 4294967296)
      else s.rom address
  | CartModel.mbc2 | CartModel.mbc3 =>
      if GB_ROM_BANK_SIZE ≤ address then
        s.rom ((address + ((s.current_rom_bank + 4294967296 - 1) % 4294967296) * GB_ROM_BANK_SIZE) % 4294967296)
      else s.rom address
  | CartModel.mbc5 =>
      if GB_ROM_BANK_SIZE ≤ address then
        let bank := s.current_rom_bank % s.rom_banks
        s.rom ((address - GB_ROM_BANK_SIZE + bank * GB_ROM_BANK_SIZE) % 4294967296)
      else s.rom address

/-- write_cart_rom: the bank-select control windows of the four MBC
models.  latch_rtc (MBC3, 0x6000 window) mutates only the RTC
substate and is dropped from this projection. -/
def write_cart_rom (s : CartState) (address value : Nat) : CartState :=
  match s.model with
  | CartModel.simple => s
  | CartModel.mbc1 =>
      if address < 0x2000 then
        { s with ram_write_protected := (value &&& 0xF) ≠ 0xA }
      else if address < 0x4000 then
        { s with current_rom_bank :=
            (s.current_rom_bank &&& (4294967295 ^^^ 0x1F)) ||| (value &&& 0x1F) }
      else if address < 0x6000 then
        let s := { s with current_rom_bank :=
            (s.current_rom_bank &&& 0x1F) ||| ((value &&& 3) <<< 5) }
        if 0 < s.ram_banks then
          { s with current_ram_bank := (value &&& 3) % s.ram_banks }
        else s
      else
        { s with mbc1_bank_ram := (value &&& 1) ≠ 0 }
  | CartModel.mbc2 =>
      if address < 0x2000 then
        { s with ram_write_protected := (value &&& 0xF) ≠ 0xA }
      else if address < 0x4000 then
        let b := value &&& 0xF
        { s with current_rom_bank := if b = 0 then 1 else b }
      else s
  | CartModel.mbc3 =>
      if address < 0x2000 then
        { s with ram_write_protected := (value &&& 0xF) ≠ 0xA }
      else if address < 0x4000 then
        let b := (value &&& 0x7F) % s.rom_banks
        { s with current_rom_bank := if b = 0 then 1 else b }
      else if address < 0x6000 then
        { s with current_ram_bank := value }
      else s
  | CartModel.mbc5 =>
      if address < 0x2000 then
        { s with ram_write_protected := (value &&& 0xF) ≠ 0xA }
      else if address < 0x3000 then
        { s with current_rom_bank := (s.current_rom_bank &&& 0x100) ||| value }
      else if address < 0x4000 then
        { s with current_rom_bank := (s.current_rom_bank &&& 0xFF) ||| ((value &&& 1) <<< 8) }
      else if address < 0x6000 then
        if 0 < s.ram_banks then
          { s with current_ram_bank := (value &&& 0xF) % s.ram_banks }
        else s
      else s

def get_cart_mbc1_ram_offset (s : CartState) (address : Nat) : Nat :=
  if s.ram_banks = 1 then address % s.ram_length
  else
    let bank := s.current_ram_bank
    let bank := if s.mbc1_bank_ram then bank % 4 else 0
    bank * GB_RAM_BANK_SIZE + address

/-- write_cart_ram, threaded with the scheduler so that the
sync_next(CART) call of the MBC3 RTC branch is visible.  Note that
only that branch -- reached when current_ram_bank > 3 on MBC3 -- sets
write_ram_flag and schedules the save; every plain RAM store returns
with the flag and the scheduler untouched.  write_rtc mutates only
the RTC substate. -/
def write_cart_ram (s : CartState) (sched : SchedState) (address value : Nat) :
    CartState × SchedState :=
  if s.ram_write_protected then (s, sched)
  else
    match s.model with
    | CartModel.simple => (s, sched)
    | CartModel.mbc1 =>
        if s.ram_banks = 0 then (s, sched)
        else
          let off := get_cart_mbc1_ram_offset s address
          ({ s with ram := Function.update s.ram off value }, sched)
    | CartModel.mbc2 =>
        ({ s with ram := Function.update s.ram (address % 512) (value ||| 0xF0) }, sched)
    | CartModel.mbc3 =>
        if s.current_ram_bank ≤ 3 then
          if s.ram_banks = 0 then (s, sched)
          else
            let b := s.current_ram_bank % s.ram_banks
            ({ s with ram := Function.update s.ram (b * GB_RAM_BANK_SIZE + address) value }, sched)
        else
          if s.save_file then
            ({ s with write_ram_flag := true },
              sync_next sched GB_SYNC_CART ((CPU_FREQUENCY_HZ : Int) * 3))
          else (s, sched)
    | CartModel.mbc5 =>
        if s.ram_banks = 0 then (s, sched)
        else
          ({ s with ram :=
              Function.update s.ram (s.current_ram_bank * GB_RAM_BANK_SIZE + address) value },
            sched)

/-- Concrete MBC1 cartridge with 32 ROM banks used by the bank-select
counterexamples: freshly loaded state (load_cart sets
current_rom_bank = 1, write-protected RAM, non-banking mode); each
ROM byte holds the index of its 16 KiB bank so reads identify the
bank they came from. -/
def cart32 : CartState :=
  { rom := fun a => (a / 0x4000) % 256
    rom_length := 32 * GB_ROM_BANK_SIZE
    rom_banks := 32
    current_rom_bank := 1
    ram := fun _ => 0
    ram_length := 0
    ram_banks := 0
    current_ram_bank := 0
    ram_write_protected := true
    model := CartModel.mbc1
    mbc1_bank_ram := false
    save_file := false
    write_ram_flag := false
    has_rtc := false }

/-- Concrete MBC1 cartridge with one 8 KiB RAM bank, battery backup
and unprotected RAM, used for the cartridge-RAM persistence check. -/
def cart_ram1 : CartState :=
  { rom := fun _ => 0
    rom_length := 2 * GB_ROM_BANK_SIZE
    rom_banks := 2
    current_rom_bank := 1
    ram := fun _ => 0
    ram_length := GB_RAM_BANK_SIZE
    ram_banks := 1
    current_ram_bank := 0
    ram_write_protected := false
    model := CartModel.mbc1
    mbc1_bank_ram := false
    save_file := true
    write_ram_flag := false
    has_rtc := false }

/-! ### HBLANK DMA (src/src/hdma.c) -/

structure HdmaState where
  source_address : Nat
  destination_offset : Nat
  length : Nat
  run_on_hblank : Bool

/-- Trace of the bus writes performed by the while-loop of copy_hdma:
each transferred byte is read from the running source address and
written to 0x8000 + (dst % 0x2000); both cursors are uint16_t and
advance with wraparound. -/
def copy_hdma_trace (mem : Nat → Nat) : Nat → Nat → Nat → List (Nat × Nat)
  | _, _, 0 => []
  | src, dst, n + 1 =>
      (0x8000 + dst % 0x2000, mem src) ::
        copy_hdma_trace mem ((src + 1) % 65536) ((dst + 1) % 65536) n

/-- copy_hdma: final cursor positions plus the list of bus writes.
The 2 T-states-per-byte timestamp charge touches only the global
clock. -/
def copy_hdma (mem : Nat → Nat) (h : HdmaState) (len : Nat) :
    HdmaState × List (Nat × Nat) :=
  ({ h with
      source_address := (h.source_address + len) % 65536
      destination_offset := (h.destination_offset + len) % 65536 },
    copy_hdma_trace mem h.source_address h.destination_offset len)

/-- hblank_hdma: one 16-byte block per HBLANK. -/
def hblank_hdma (mem : Nat → Nat) (h : HdmaState) : HdmaState × List (Nat × Nat) :=
  let r := copy_hdma mem h 0x10
  let h2 := r.1
  if h2.length = 0 then ({ h2 with run_on_hblank := false, length := 0x7F }, r.2)
  else ({ h2 with length := h2.length - 1 }, r.2)

/-- Immediate branch of start_hdma: a blocking copy of
(length + 1) * 16 bytes. -/
def start_hdma_immediate (mem : Nat → Nat) (h : HdmaState) :
    HdmaState × List (Nat × Nat) :=
  let len := (h.length + 1) * 0x10
  let r := copy_hdma mem h len
  ({ r.1 with run_on_hblank := false, length := 0x7F }, r.2)

/-! ### CPU (src/src/cpu.c)

CpuState mirrors struct gameboy_cpu.  For the interrupt-service path
the CPU is paired with the interrupt controller registers, the global
timestamp and a flat byte-addressed view of the bus (the two pushes
land wherever SP points; bus region decoding is orthogonal to the
claim).  cpu_clock_tick may dispatch pending device catch-ups, which
mutate device state but none of the fields modelled here. -/

structure CpuState where
  interrupt_master_enable : Bool
  interrupt_request_enable_next : Bool
  halted : Bool
  program_counter : Nat
  stack_pointer : Nat
  a : Nat
  b : Nat
  c : Nat
  d : Nat
  e : Nat
  h : Nat
  l : Nat
  zero_flag : Bool
  null_flag : Bool
  half_carry_flag : Bool
  carry_flag : Bool

structure CpuBusState where
  cpu : CpuState
  interrupt_request_flags : Nat
  interrupt_request_enable : Nat
  timestamp : Int
  mem : Nat → Nat

def cpu_clock_tick (st : CpuBusState) (cycles : Int) : CpuBusState :=
  { st with timestamp := st.timestamp + cycles }

/-- write_cpu: a bus write followed by a 4 T-state tick; the value is
a uint8_t parameter. -/
def write_cpu (st : CpuBusState) (address value : Nat) : CpuBusState :=
  cpu_clock_tick { st with mem := Function.update st.mem address (value % 256) } 4

/-- cpu_pushb: pre-decrement SP (uint16) and store the byte there. -/
def cpu_pushb (st : CpuBusState) (b : Nat) : CpuBusState :=
  let sp := (st.cpu.stack_pointer + 65535) % 65536
  write_cpu { st with cpu := { st.cpu with stack_pointer := sp } } sp b

/-- cpu_pushw: high byte first, then low byte. -/
def cpu_pushw (st : CpuBusState) (w : Nat) : CpuBusState :=
  cpu_pushb (cpu_pushb st (w >>> 8)) (w &&& 0xFF)

def cpu_load_pc (st : CpuBusState) (new_program_counter : Nat) : CpuBusState :=
  cpu_clock_tick { st with cpu := { st.cpu with program_counter := new_program_counter } } 4

/-- Fixed interrupt vectors, indexed by token (VSYNC, LCDSTAT, TIMER,
SERIAL, INPUT). -/
def gameboy_interrupt_request_handlers : List Nat := [0x40, 0x48, 0x50, 0x58, 0x60]

/-- Index of the for-loop break in check_cpu_interrupts: the first i
with bit i of the active mask set (the mask is nonzero and below 32
whenever this is consulted). -/
def lowest_active_interrupt (active : Nat) : Nat :=
  if active &&& 1 ≠ 0 then 0
  else if active &&& 2 ≠ 0 then 1
  else if active &&& 4 ≠ 0 then 2
  else if active &&& 8 ≠ 0 then 3
  else 4

/-- Steps of check_cpu_interrupts up to and including the 12 T-state
charge for entering the interrupt context (IME and the delayed-IME
flag are cleared first). -/
def cpu_interrupt_prelude (st : CpuBusState) : CpuBusState :=
  cpu_clock_tick
    { st with cpu := { st.cpu with
        interrupt_master_enable := false
        interrupt_request_enable_next := false } } 12

/-- Remaining steps of check_cpu_interrupts: push PC, acknowledge bit
i of IF (uint8 store of the 32-bit complement mask), jump to the
handler. -/
def cpu_interrupt_finish (st : CpuBusState) (i : Nat) : CpuBusState :=
  let st := cpu_pushw st st.cpu.program_counter
  let st := { st with interrupt_request_flags :=
      (st.interrupt_request_flags &&& (4294967295 ^^^ (1 <<< i))) % 256 }
  cpu_load_pc st (gameboy_interrupt_request_handlers.getD i 0)

def check_cpu_interrupts (st : CpuBusState) : CpuBusState :=
  if st.interrupt_request_enable &&& st.interrupt_request_flags &&& 0x1F = 0 then st
  else
    let st2 := { st with cpu := { st.cpu with halted := false } }
    if st2.cpu.interrupt_master_enable = false then st2
    else
      cpu_interrupt_finish (cpu_interrupt_prelude st2)
        (lowest_active_interrupt
          (st.interrupt_request_enable &&& st.interrupt_request_flags &&& 0x1F))

/-- cpu_add_set_flags: 8-bit add with the flags computed through the
widened 16-bit result; returns the updated flags and the uint8
result. -/
def cpu_add_set_flags (st : CpuState) (a b : Nat) : CpuState × Nat :=
  let r := a + b
  ({ st with
      zero_flag := decide ((r &&& 0xFF) = 0)
      null_flag := false
      half_carry_flag := decide (((a ^^^ b ^^^ r) &&& 0x10) ≠ 0)
      carry_flag := decide ((r &&& 0x100) ≠ 0) },
    r % 256)

def process_add_a_a (st : CpuState) : CpuState :=
  let p := cpu_add_set_flags st st.a st.a
  { p.1 with a := p.2 }

/-- process_daa: decimal adjust of A.  adj is assembled from the H
and C flags; in the subtract case A decreases by adj (uint8 wrap), in
the add case adj may grow by 0x06/0x60 from the nibble tests before
being added; afterwards Z tracks the result, C reports the 0x60
component of adj, H clears. -/
def process_daa (st : CpuState) : CpuState :=
  let a := st.a
  let adj := (if st.half_carry_flag then 0x06 else 0) ||| (if st.carry_flag then 0x60 else 0)
  if st.null_flag then
    let a2 := (a + 256 - adj) % 256
    { st with a := a2
              zero_flag := decide (a2 = 0)
              carry_flag := decide ((adj &&& 0x60) ≠ 0)
              half_carry_flag := false }
  else
    let adj2 := adj ||| (if 0x09 < (a &&& 0xF) then 0x06 else 0)
    let adj3 := adj2 ||| (if 0x99 < a then 0x60 else 0)
    let a2 := (a + adj3) % 256
    { st with a := a2
              zero_flag := decide (a2 = 0)
              carry_flag := decide ((adj3 &&& 0x60) ≠ 0)
              half_carry_flag := false }

/-- Concrete CPU state with every register and flag cleared. -/
def cpu0 : CpuState :=
  { interrupt_master_enable := false
    interrupt_request_enable_next := false
    halted := false
    program_counter := 0x100
    stack_pointer := 0xFFFE
    a := 0, b := 0, c := 0, d := 0, e := 0, h := 0, l := 0
    zero_flag := false, null_flag := false
    half_carry_flag := false, carry_flag := false }

/-! ### Memory-mapped IO register file (src/src/bus.c, page 0xFF00-0xFFFF)

The model below carries the register-backing fields of every device
the IO page exposes, translated branch by branch from read_bus and
write_bus.  The device catch-ups those branches perform (sync_timer,
sync_ppu, sync_spu, sync_dma) mutate only sub-cycle run-time state --
divider remainders, waveform phases, envelope counters, channel
running flags, PPU scanline counters -- and never the register-backing
bits read back here; a read issued at the same timestamp as the write
(elapsed 0) therefore observes exactly the stored fields, which is
what io_read and io_write model (the PPU ports reuse the sync_ppu
model above with elapsed 0).  The VRAM stores performed by an
immediate HDMA transfer land outside this register file and are
modelled separately by copy_hdma. -/

structure SpuState where
  enable : Bool
  output_level : Nat
  sound_mux : Nat
  nr1_running : Bool
  nr1_duration_enable : Bool
  nr1_sweep_shift : Nat
  nr1_sweep_subtract : Bool
  nr1_sweep_time : Nat
  nr1_sweep_divider_offset : Nat
  nr1_duty_cycle : Nat
  nr1_envelope_configuration : Nat
  nr2_running : Bool
  nr2_duration_enable : Bool
  nr2_divider_offset : Nat
  nr2_duty_cycle : Nat
  nr2_envelope_configuration : Nat
  nr3_enable : Bool
  nr3_running : Bool
  nr3_duration_enable : Bool
  nr3_t1 : Nat
  nr3_volume_shift : Nat
  nr3_divider_offset : Nat
  nr3_ram : Nat → Nat
  nr4_running : Bool
  nr4_duration_enable : Bool
  nr4_envelope_configuration : Nat
  nr4_lfsr_configuration : Nat

/-- reset_spu from spu.c, projected on the register-backing fields
(the divider counters, phases, envelope and LFSR run-time state it
also reinitialises are not register-visible).  Note it turns the
master enable back on; the NR52 write handler assigns the final
value afterwards. -/
def reset_spu (s : SpuState) : SpuState :=
  { s with
    enable := true
    output_level := 0
    sound_mux := 0
    nr1_running := false, nr1_duration_enable := false
    nr1_duty_cycle := 0, nr1_envelope_configuration := 0
    nr1_sweep_divider_offset := 0
    nr1_sweep_shift := 0, nr1_sweep_subtract := false, nr1_sweep_time := 0
    nr2_running := false, nr2_duration_enable := false
    nr2_duty_cycle := 0, nr2_envelope_configuration := 0
    nr2_divider_offset := 0
    nr3_enable := false, nr3_running := false, nr3_duration_enable := false
    nr3_volume_shift := 0, nr3_divider_offset := 0, nr3_t1 := 0
    nr4_running := false, nr4_duration_enable := false
    nr4_envelope_configuration := 0, nr4_lfsr_configuration := 0 }

/-- reload_spu_sweep: unpack the NR10 configuration byte. -/
def reload_spu_sweep (s : SpuState) (configuration : Nat) : SpuState :=
  { s with
    nr1_sweep_shift := configuration &&& 0x7
    nr1_sweep_subtract := (configuration >>> 3) &&& 1 ≠ 0
    nr1_sweep_time := (configuration >>> 4) &&& 0x7 }

/-- start_spu_nr1: restart channel 1; it runs iff the envelope loaded
from the configuration register is active (value nonzero or
incrementing). -/
def start_spu_nr1 (s : SpuState) : SpuState :=
  { s with nr1_running :=
      (s.nr1_envelope_configuration >>> 4 != 0) ||
        (s.nr1_envelope_configuration &&& 8 != 0) }

def start_spu_nr2 (s : SpuState) : SpuState :=
  { s with nr2_running :=
      (s.nr2_envelope_configuration >>> 4 != 0) ||
        (s.nr2_envelope_configuration &&& 8 != 0) }

/-- start_spu_nr3: requires the sound-3 enable bit. -/
def start_spu_nr3 (s : SpuState) : SpuState :=
  if s.nr3_enable = false then s else { s with nr3_running := true }

def start_spu_nr4 (s : SpuState) : SpuState :=
  { s with nr4_running := true }

structure GamepadState where
  dpad_state : Nat
  dpad_selected : Bool
  buttons_state : Nat
  buttons_selected : Bool

def select_gamepad (g : GamepadState) (selection : Nat) : GamepadState :=
  { g with
    dpad_selected := (selection &&& 0x10) = 0
    buttons_selected := (selection &&& 0x20) = 0 }

def get_gamepad_state (g : GamepadState) : Nat :=
  let value := 0xFF
  let value := if g.dpad_selected then value &&& g.dpad_state else value
  let value := if g.buttons_selected then value &&& g.buttons_state else value
  value

/-- Timer register file; divider holds the enum value (the low two
TAC bits). -/
structure TimerState where
  divider_counter : Nat
  counter : Nat
  modulo : Nat
  divider : Nat
  started : Bool

def get_timer_configuration (t : TimerState) : Nat :=
  t.divider ||| (if t.started then 4 else 0)

/-- set_timer_configuration (the surrounding sync_timer calls leave
the register fields untouched at elapsed 0). -/
def set_timer_configuration (t : TimerState) (configuration : Nat) : TimerState :=
  { t with started := configuration &&& 4 ≠ 0, divider := configuration &&& 3 }

structure DmaState where
  running : Bool
  source_address : Nat
  position : Nat

/-- start_dma: arm an OAM copy from the given page; sources the DMA
engine cannot reach (cartridge space on DMG, anything at or above
0xE000) silently cancel it. -/
def start_dma (d : DmaState) (gbc : Bool) (source : Nat) : DmaState :=
  let source_address := source <<< 8
  let running :=
    ¬ ((gbc = false ∧ source_address < 0x8000) ∨ 0xE000 ≤ source_address)
  { d with
    source_address := source_address
    position := 0
    running := running }

/-- Write one byte into a GBC colour-palette port (BCPD/OCPD):
write_index selects palette, colour and half; auto_increment advances
the index mod 0x40. -/
def palette_data_write (p : ColourPalette) (value : Nat) : ColourPalette :=
  let index := p.write_index
  let palette := index >>> 3
  let colour_index := (index >>> 1) &&& 3
  let high := index &&& 1 ≠ 0
  let colour := p.colours palette colour_index
  let colour :=
    if high then (colour &&& 0xFF) ||| (value <<< 8)
    else (colour &&& 0xFF00) ||| value
  let p := { p with colours := fun a b =>
      if a = palette ∧ b = colour_index then colour else p.colours a b }
  if p.auto_increment then { p with write_index := (p.write_index + 1) &&& 0x3F }
  else p

/-- Read back a GBC colour-palette port. -/
def palette_data_read (p : ColourPalette) : Nat :=
  let index := p.write_index
  let palette := index >>> 3
  let colour_index := (index >>> 1) &&& 3
  let high := index &&& 1 ≠ 0
  let colour := p.colours palette colour_index
  if high then colour >>> 8 else colour &&& 0xFF

structure IoState where
  gbc : Bool
  interrupt_request_flags : Nat
  interrupt_request_enable : Nat
  timer : TimerState
  gamepad : GamepadState
  spu : SpuState
  ppu : PpuState
  dma : DmaState
  hdma : HdmaState
  video_ram_high_bank : Bool
  internal_ram_high_bank : Nat

/-- read_bus restricted to the IO page 0xFF00-0xFFFF (plus IE at
0xFFFF), branch for branch.  Unknown addresses log a diagnostic and
read 0xFF. -/
def io_read (s : IoState) (address : Nat) : Nat :=
  if address = 0xFF00 then get_gamepad_state s.gamepad
  else if address = 0xFF01 then 0xFF
  else if address = 0xFF02 then 0
  else if address = 0xFF04 then s.timer.divider_counter >>> 8
  else if address = 0xFF05 then s.timer.counter
  else if address = 0xFF06 then s.timer.modulo
  else if address = 0xFF07 then get_timer_configuration s.timer
  else if address = 0xFF0F then s.interrupt_request_flags
  else if address = 0xFF10 then
    0x80 ||| s.spu.nr1_sweep_shift
      ||| (if s.spu.nr1_sweep_subtract then 8 else 0)
      ||| (s.spu.nr1_sweep_time <<< 4)
  else if address = 0xFF11 then (s.spu.nr1_duty_cycle <<< 6) ||| 0x3F
  else if address = 0xFF12 then s.spu.nr1_envelope_configuration
  else if address = 0xFF13 then 0xFF
  else if address = 0xFF14 then
    (if s.spu.nr1_duration_enable then 64 else 0) ||| 0xBF
  else if address = 0xFF16 then (s.spu.nr2_duty_cycle <<< 6) ||| 0x3F
  else if address = 0xFF17 then s.spu.nr2_envelope_configuration
  else if address = 0xFF18 then 0xFF
  else if address = 0xFF19 then
    (if s.spu.nr2_duration_enable then 64 else 0) ||| 0xBF
  else if address = 0xFF1A then
    (if s.spu.nr3_enable then 128 else 0) ||| 0x7F
  else if address = 0xFF1B then s.spu.nr3_t1
  else if address = 0xFF1C then (s.spu.nr3_volume_shift <<< 5) ||| 0x9F
  else if address = 0xFF1D then 0xFF
  else if address = 0xFF1E then
    (if s.spu.nr3_duration_enable then 64 else 0) ||| 0xBF
  else if address = 0xFF20 then 0xFF
  else if address = 0xFF21 then s.spu.nr4_envelope_configuration
  else if address = 0xFF22 then s.spu.nr4_lfsr_configuration
  else if address = 0xFF23 then
    (if s.spu.nr4_duration_enable then 64 else 0) ||| 0xBF
  else if address = 0xFF24 then s.spu.output_level
  else if address = 0xFF25 then s.spu.sound_mux
  else if address = 0xFF26 then
    (if s.spu.nr2_running then 2 else 0)
      ||| (if s.spu.nr3_running then 4 else 0)
      ||| (if s.spu.enable then 128 else 0)
  else if 0xFF30 ≤ address ∧ address < 0xFF40 then s.spu.nr3_ram (address - 0xFF30)
  else if address = 0xFF40 then get_lcdc s.ppu
  else if address = 0xFF41 then get_lcd_stat s.ppu
  else if address = 0xFF42 then s.ppu.scroll_y
  else if address = 0xFF43 then s.ppu.scroll_x
  else if address = 0xFF44 then s.ppu.ly
  else if address = 0xFF45 then s.ppu.lyc
  else if address = 0xFF46 then s.dma.source_address >>> 8
  else if address = 0xFF47 then s.ppu.background_palette
  else if address = 0xFF48 then s.ppu.sprite_palette0
  else if address = 0xFF49 then s.ppu.sprite_palette1
  else if address = 0xFF4A then s.ppu.window_y
  else if address = 0xFF4B then s.ppu.window_x
  else if address = 0xFFFF then s.interrupt_request_enable
  else if s.gbc = true ∧ address = 0xFF4F then
    (if s.video_ram_high_bank then 1 else 0) ||| 0xFE
  else if s.gbc = true ∧ address = 0xFF51 then s.hdma.source_address >>> 8
  else if s.gbc = true ∧ address = 0xFF52 then s.hdma.source_address &&& 0xFF
  else if s.gbc = true ∧ address = 0xFF53 then s.hdma.destination_offset >>> 8
  else if s.gbc = true ∧ address = 0xFF54 then s.hdma.destination_offset &&& 0xFF
  else if s.gbc = true ∧ address = 0xFF55 then
    (if s.hdma.run_on_hblank then 0 else 128) ||| (s.hdma.length &&& 0x7F)
  else if s.gbc = true ∧ address = 0xFF68 then
    (if s.ppu.background_palettes.auto_increment then 128 else 0)
      ||| s.ppu.background_palettes.write_index
  else if s.gbc = true ∧ address = 0xFF69 then palette_data_read s.ppu.background_palettes
  else if s.gbc = true ∧ address = 0xFF6A then
    (if s.ppu.sprite_palettes.auto_increment then 128 else 0)
      ||| s.ppu.sprite_palettes.write_index
  else if s.gbc = true ∧ address = 0xFF6B then palette_data_read s.ppu.sprite_palettes
  else if s.gbc = true ∧ address = 0xFF70 then s.internal_ram_high_bank ||| 0xF8
  else 0xFF

/-- write_bus restricted to the IO page, branch for branch.  value is
a uint8_t parameter.  Unknown addresses are dropped with a
diagnostic.  The HDMA5 branch updates the cursors and flags of the
engine; the VRAM bytes an immediate transfer stores live outside this
register file (copy_hdma models them). -/
def io_write (s : IoState) (address value : Nat) : IoState :=
  if address = 0xFF00 then { s with gamepad := select_gamepad s.gamepad value }
  else if address = 0xFF01 then s
  else if address = 0xFF02 then s
  else if address = 0xFF04 then { s with timer := { s.timer with divider_counter := 0 } }
  else if address = 0xFF05 then { s with timer := { s.timer with counter := value } }
  else if address = 0xFF06 then { s with timer := { s.timer with modulo := value } }
  else if address = 0xFF07 then { s with timer := set_timer_configuration s.timer value }
  else if address = 0xFF0F then { s with interrupt_request_flags := value ||| 0xE0 }
  else if address = 0xFFFF then { s with interrupt_request_enable := value }
  else if address = 0xFF10 then
    if s.spu.enable then { s with spu := reload_spu_sweep s.spu value } else s
  else if address = 0xFF11 then
    if s.spu.enable then
      { s with spu := { s.spu with nr1_duty_cycle := value >>> 6 } }
    else s
  else if address = 0xFF12 then
    if s.spu.enable then
      { s with spu := { s.spu with nr1_envelope_configuration := value } }
    else s
  else if address = 0xFF13 then
    if s.spu.enable then
      let offset := (s.spu.nr1_sweep_divider_offset &&& 0x700) ||| value
      { s with spu := { s.spu with nr1_sweep_divider_offset := offset } }
    else s
  else if address = 0xFF14 then
    if s.spu.enable then
      let offset := (s.spu.nr1_sweep_divider_offset &&& 0xFF) ||| ((value &&& 7) <<< 8)
      let spu := { s.spu with
        nr1_sweep_divider_offset := offset
        nr1_duration_enable := value &&& 0x40 ≠ 0 }
      let spu := if value &&& 0x80 ≠ 0 then start_spu_nr1 spu else spu
      { s with spu := spu }
    else s
  else if address = 0xFF16 then
    if s.spu.enable then
      { s with spu := { s.spu with nr2_duty_cycle := value >>> 6 } }
    else s
  else if address = 0xFF17 then
    if s.spu.enable then
      { s with spu := { s.spu with nr2_envelope_configuration := value } }
    else s
  else if address = 0xFF18 then
    if s.spu.enable then
      let offset := (s.spu.nr2_divider_offset &&& 0x700) ||| value
      { s with spu := { s.spu with nr2_divider_offset := offset } }
    else s
  else if address = 0xFF19 then
    if s.spu.enable then
      let offset := (s.spu.nr2_divider_offset &&& 0xFF) ||| ((value &&& 7) <<< 8)
      let spu := { s.spu with
        nr2_divider_offset := offset
        nr2_duration_enable := value &&& 0x40 ≠ 0 }
      let spu := if value &&& 0x80 ≠ 0 then start_spu_nr2 spu else spu
      { s with spu := spu }
    else s
  else if address = 0xFF1A then
    if s.spu.enable then
      let enable := value &&& 0x80 ≠ 0
      let spu := { s.spu with nr3_enable := enable }
      let spu := if enable then spu else { spu with nr3_running := false }
      { s with spu := spu }
    else s
  else if address = 0xFF1B then
    if s.spu.enable then { s with spu := { s.spu with nr3_t1 := value } } else s
  else if address = 0xFF1C then
    if s.spu.enable then
      { s with spu := { s.spu with nr3_volume_shift := (value >>> 5) &&& 3 } }
    else s
  else if address = 0xFF1D then
    if s.spu.enable then
      let offset := (s.spu.nr3_divider_offset &&& 0x700) ||| value
      { s with spu := { s.spu with nr3_divider_offset := offset } }
    else s
  else if address = 0xFF1E then
    if s.spu.enable then
      let offset := (s.spu.nr3_divider_offset &&& 0xFF) ||| ((value &&& 7) <<< 8)
      let spu := { s.spu with
        nr3_divider_offset := offset
        nr3_duration_enable := value &&& 0x40 ≠ 0 }
      let spu := if value &&& 0x80 ≠ 0 then start_spu_nr3 spu else spu
      { s with spu := spu }
    else s
  else if address = 0xFF20 then s
  else if address = 0xFF21 then
    if s.spu.enable then
      { s with spu := { s.spu with nr4_envelope_configuration := value } }
    else s
  else if address = 0xFF22 then
    if s.spu.enable then
      { s with spu := { s.spu with nr4_lfsr_configuration := value } }
    else s
  else if address = 0xFF23 then
    if s.spu.enable then
      let spu := { s.spu with nr4_duration_enable := value &&& 0x40 ≠ 0 }
      let spu := if value &&& 0x80 ≠ 0 then start_spu_nr4 spu else spu
      { s with spu := spu }
    else s
  else if address = 0xFF24 then
    if s.spu.enable then { s with spu := { s.spu with output_level := value } } else s
  else if address = 0xFF25 then
    if s.spu.enable then { s with spu := { s.spu with sound_mux := value } } else s
  else if address = 0xFF26 then
    let enable := value &&& 0x80 ≠ 0
    if s.spu.enable = enable then s
    else
      let spu := if enable then s.spu else reset_spu s.spu
      { s with spu := { spu with enable := enable } }
  else if 0xFF30 ≤ address ∧ address < 0xFF40 then
    let ram := Function.update s.spu.nr3_ram (address - 0xFF30) value
    { s with spu := { s.spu with nr3_ram := ram } }
  else if address = 0xFF40 then { s with ppu := set_lcdc s.ppu 0 0 value }
  else if address = 0xFF41 then { s with ppu := set_lcd_stat s.ppu 0 0 value }
  else if address = 0xFF42 then { s with ppu := { s.ppu with scroll_y := value } }
  else if address = 0xFF43 then { s with ppu := { s.ppu with scroll_x := value } }
  else if address = 0xFF45 then { s with ppu := { s.ppu with lyc := value } }
  else if address = 0xFF46 then { s with dma := start_dma s.dma s.gbc value }
  else if address = 0xFF47 then
    { s with ppu := { s.ppu with background_palette := value } }
  else if address = 0xFF48 then
    { s with ppu := { s.ppu with sprite_palette0 := value } }
  else if address = 0xFF49 then
    { s with ppu := { s.ppu with sprite_palette1 := value } }
  else if address = 0xFF4A then { s with ppu := { s.ppu with window_y := value } }
  else if address = 0xFF4B then { s with ppu := { s.ppu with window_x := value } }
  else if s.gbc = true ∧ address = 0xFF4F then
    { s with video_ram_high_bank := value &&& 1 ≠ 0 }
  else if s.gbc = true ∧ address = 0xFF51 then
    let source_address := (s.hdma.source_address &&& 0xFF) ||| (value <<< 8)
    { s with hdma := { s.hdma with source_address := source_address } }
  else if s.gbc = true ∧ address = 0xFF52 then
    let source_address := (s.hdma.source_address &&& 0xFF00) ||| (value &&& 0xF0)
    { s with hdma := { s.hdma with source_address := source_address } }
  else if s.gbc = true ∧ address = 0xFF53 then
    let destination_offset := (s.hdma.destination_offset &&& 0xFF) ||| (value <<< 8)
    { s with hdma := { s.hdma with destination_offset := destination_offset } }
  else if s.gbc = true ∧ address = 0xFF54 then
    let destination_offset := (s.hdma.destination_offset &&& 0xFF00) ||| (value &&& 0xF0)
    { s with hdma := { s.hdma with destination_offset := destination_offset } }
  else if s.gbc = true ∧ address = 0xFF55 then
    let run_on_hblank := value &&& 0x80 ≠ 0
    let hdma := { s.hdma with length := value &&& 0x7F }
    if ¬ run_on_hblank ∧ s.hdma.run_on_hblank then
      { s with hdma := { hdma with run_on_hblank := false } }
    else if run_on_hblank then
      { s with hdma := { hdma with run_on_hblank := true } }
    else
      let len := (hdma.length + 1) * 0x10
      let hdma := { hdma with
        source_address := (hdma.source_address + len) % 65536
        destination_offset := (hdma.destination_offset + len) % 65536
        run_on_hblank := false
        length := 0x7F }
      { s with hdma := hdma }
  else if s.gbc = true ∧ address = 0xFF68 then
    let p := { s.ppu.background_palettes with
      auto_increment := value &&& 0x80 ≠ 0
      write_index := value &&& 0x3F }
    { s with ppu := { s.ppu with background_palettes := p } }
  else if s.gbc = true ∧ address = 0xFF69 then
    let p := palette_data_write s.ppu.background_palettes value
    { s with ppu := { s.ppu with background_palettes := p } }
  else if s.gbc = true ∧ address = 0xFF6A then
    let p := { s.ppu.sprite_palettes with
      auto_increment := value &&& 0x80 ≠ 0
      write_index := value &&& 0x3F }
    { s with ppu := { s.ppu with sprite_palettes := p } }
  else if s.gbc = true ∧ address = 0xFF6B then
    let p := palette_data_write s.ppu.sprite_palettes value
    { s with ppu := { s.ppu with sprite_palettes := p } }
  else if s.gbc = true ∧ address = 0xFF70 then
    { s with internal_ram_high_bank := value &&& 7 }
  else s

/-- Concrete IO state: master SPU enabled, everything else in its
reset configuration, GBC mode. -/
def io0 : IoState :=
  { gbc := true
    interrupt_request_flags := 0xE0
    interrupt_request_enable := 0
    timer := { divider_counter := 0, counter := 0, modulo := 0, divider := 0, started := false }
    gamepad := { dpad_state := 0xEF, dpad_selected := false
                 buttons_state := 0xDF, buttons_selected := false }
    spu :=
      { enable := true
        output_level := 0, sound_mux := 0
        nr1_running := false, nr1_duration_enable := false
        nr1_sweep_shift := 0, nr1_sweep_subtract := false, nr1_sweep_time := 0
        nr1_sweep_divider_offset := 0, nr1_duty_cycle := 0
        nr1_envelope_configuration := 0
        nr2_running := false, nr2_duration_enable := false
        nr2_divider_offset := 0, nr2_duty_cycle := 0
        nr2_envelope_configuration := 0
        nr3_enable := false, nr3_running := false, nr3_duration_enable := false
        nr3_t1 := 0, nr3_volume_shift := 0, nr3_divider_offset := 0
        nr3_ram := fun _ => 0
        nr4_running := false, nr4_duration_enable := false
        nr4_envelope_configuration := 0, nr4_lfsr_configuration := 0 }
    ppu := ppu0
    dma := { running := false, source_address := 0, position := 0 }
    hdma := { source_address := 0, destination_offset := 0, length := 0, run_on_hblank := false }
    video_ram_high_bank := false
    internal_ram_high_bank := 1 }

end GameBoyC

namespace GameBoyC

/-! ### Scheduler theorems -/

theorem first_event_of_sub (f : Fin 5 → Int) (t : Int) :
    first_event_of (fun i => f i - t) = first_event_of f - t := by
  simp only [first_event_of]
  omega

/-- C1: in every state reachable through the scheduler operations
(reset_sync, then any interleaving of resync_sync, sync_next,
timestamp advances and rebase_sync, which covers everything
check_sync_events can do), the cached sync.first_event equals the
minimum over the five device tokens of sync.next_event[token]. -/
theorem sched_first_event_is_min (s : SchedState) (h : SchedReachable s) :
    s.first_event = first_event_of s.next_event := by
  induction h with
  | reset =>
      simp [reset_sync, first_event_of]
  | resync s token _ ih =>
      simpa [resync_sync] using ih
  | next s token cycles _ ih =>
      rfl
  | rebase s _ ih =>
      show s.first_event - s.timestamp = first_event_of fun i => s.next_event i - s.timestamp
      rw [first_event_of_sub, ih]
  | tick s cycles _ ih =>
      simpa [advance_timestamp] using ih

/-- Witness for C1: the invariant evaluated on the concrete state
produced by scheduling token TIMER 5 cycles after reset. -/
theorem sched_first_event_is_min_witness :
    (sync_next reset_sync GB_SYNC_TIMER 5).first_event =
      first_event_of (sync_next reset_sync GB_SYNC_TIMER 5).next_event :=
  sched_first_event_is_min _
    (SchedReachable.next reset_sync GB_SYNC_TIMER 5 SchedReachable.reset)

/-- Concrete scheduler state in which the PPU token was last synced
at cycle 5 while the global timestamp stands at 0. -/
def c6_state : SchedState :=
  { timestamp := 0
    first_event := 0
    last_sync := fun _ => 5
    next_event := fun _ => 0 }

/-- C6 counterexample: called with timestamp < last_sync[token],
resync_sync returns the negative difference -5, not the claimed 0. -/
theorem resync_negative_returns_negative :
    c6_state.timestamp < c6_state.last_sync GB_SYNC_PPU ∧
      (resync_sync c6_state GB_SYNC_PPU).2 = -5 ∧
      (resync_sync c6_state GB_SYNC_PPU).2 ≠ 0 := by
  refine ⟨by norm_num [c6_state], by norm_num [c6_state, resync_sync], by norm_num [c6_state, resync_sync]⟩

/-- C6 amended: when resync_sync runs with timestamp <
last_sync[token], it prints a diagnostic but returns the negative
value timestamp - last_sync[token] unclamped, while still setting
last_sync[token] = timestamp; a device catch-up loop such as the
PPU's runs zero iterations on that non-positive elapsed value, so the
device advances by zero cycles. -/
theorem resync_negative_elapsed (s : SchedState) (token : Fin 5)
    (h : s.timestamp < s.last_sync token) :
    (resync_sync s token).2 = s.timestamp - s.last_sync token ∧
      (resync_sync s token).2 < 0 ∧
      (resync_sync s token).1.last_sync token = s.timestamp ∧
      ∀ p : PpuState, sync_ppu p (resync_sync s token).2 = p := by
  refine ⟨rfl, by simp [resync_sync]; omega, by simp [resync_sync], ?_⟩
  intro p
  have he : (resync_sync s token).2 = s.timestamp - s.last_sync token := rfl
  have hneg : (resync_sync s token).2 ≤ 0 := by omega
  unfold sync_ppu
  have ht : ((resync_sync s token).2).toNat = 0 := Int.toNat_of_nonpos hneg
  rw [ht]
  cases hm : p.master_enable <;> simp [sync_ppu_loop]

/-- Witness for C6 amended, on the concrete anomalous state. -/
theorem resync_negative_elapsed_witness :
    (resync_sync c6_state GB_SYNC_PPU).2 =
        c6_state.timestamp - c6_state.last_sync GB_SYNC_PPU ∧
      (resync_sync c6_state GB_SYNC_PPU).2 < 0 ∧
      (resync_sync c6_state GB_SYNC_PPU).1.last_sync GB_SYNC_PPU = c6_state.timestamp ∧
      ∀ p : PpuState, sync_ppu p (resync_sync c6_state GB_SYNC_PPU).2 = p :=
  resync_negative_elapsed c6_state GB_SYNC_PPU (by norm_num [c6_state])

/-! ### PPU counter theorems -/

theorem sync_ppu_loop_ok (fuel : Nat) :
    ∀ (e : Nat) (s : PpuState), ppu_counters_ok s →
      ppu_counters_ok (sync_ppu_loop fuel e s) := by
  induction fuel with
  | zero => intro e s hs; exact hs
  | succ fuel ih =>
      intro e s hs
      obtain ⟨hpos, hly⟩ := hs
      cases e with
      | zero => exact ⟨hpos, hly⟩
      | succ e =>
          simp only [sync_ppu_loop]
          split
          · refine ⟨?_, hly⟩
            rename_i hcase
            dsimp only
            omega
          · refine ih _ _ ⟨?_, ?_⟩
            · dsimp only [ppu_step_line]
              norm_num
            · dsimp only [ppu_step_line]
              split <;> omega

theorem sync_ppu_ok (s : PpuState) (e : Int) (hs : ppu_counters_ok s) :
    ppu_counters_ok (sync_ppu s e) := by
  unfold sync_ppu
  split
  · exact hs
  · exact sync_ppu_loop_ok _ _ _ hs

theorem set_lcdc_ok (s : PpuState) (e1 e2 : Int) (v : Nat)
    (hs : ppu_counters_ok s) : ppu_counters_ok (set_lcdc s e1 e2 v) := by
  unfold set_lcdc
  dsimp only
  obtain ⟨ha, hb⟩ := sync_ppu_ok s e1 hs
  split
  · split
    · exact sync_ppu_ok _ _ ⟨by norm_num, by norm_num⟩
    · exact sync_ppu_ok _ _ ⟨ha, hb⟩
  · exact ⟨ha, hb⟩

theorem set_lcd_stat_ok (s : PpuState) (e1 e2 : Int) (v : Nat)
    (hs : ppu_counters_ok s) : ppu_counters_ok (set_lcd_stat s e1 e2 v) := by
  unfold set_lcd_stat
  dsimp only
  obtain ⟨ha, hb⟩ := sync_ppu_ok s e1 hs
  split
  · exact sync_ppu_ok _ _ ⟨ha, hb⟩
  · exact ⟨ha, hb⟩

/-- C5: in every reachable PPU state -- after reset_ppu, any sequence
of sync_ppu catch-ups (any elapsed value, covering all non-negative
ones), set_lcdc and set_lcd_stat -- the scanline counters satisfy
0 ≤ line_position < 456 and 0 ≤ ly < 154 (the lower bounds hold
because the counters are naturals). -/
theorem ppu_counters_invariant (s : PpuState) (h : PpuReachable s) :
    s.line_position < 456 ∧ s.ly < 154 := by
  induction h with
  | reset s => exact ⟨by simp [reset_ppu], by simp [reset_ppu]⟩
  | sync s e _ ih => exact sync_ppu_ok s e ih
  | lcdc s e1 e2 v _ ih => exact set_lcdc_ok s e1 e2 v ih
  | stat s e1 e2 v _ ih => exact set_lcd_stat_ok s e1 e2 v ih

/-- Witness for C5: the bounds evaluated on the concrete state
obtained by resetting the PPU and catching up by 500 cycles. -/
theorem ppu_counters_invariant_witness :
    (sync_ppu (reset_ppu ppu0) 500).line_position < 456 ∧
      (sync_ppu (reset_ppu ppu0) 500).ly < 154 :=
  ppu_counters_invariant _ (PpuReachable.sync _ 500 (PpuReachable.reset ppu0))

/-! ### Cartridge theorems -/

/-- C3 counterexample: on MBC1 (rom_banks = 32, fresh state), writing
0x00 into the 0x2000-0x3FFF bank-select window stores
current_rom_bank = 0, violating 0 < current_rom_bank; the 0-to-1
rewrite happens only at read time. -/
theorem mbc1_bank_select_stores_zero :
    (write_cart_rom cart32 0x2000 0x00).current_rom_bank = 0 ∧
      ¬ (0 < (write_cart_rom cart32 0x2000 0x00).current_rom_bank ∧
          (write_cart_rom cart32 0x2000 0x00).current_rom_bank ≤ cart32.rom_banks) := by
  refine ⟨by decide, ?_⟩
  intro hcontra
  have h0 : (write_cart_rom cart32 0x2000 0x00).current_rom_bank = 0 := by decide
  omega

/-- C3 amended: only MBC3 reduces and rewrites the bank at write
time, giving 0 < current_rom_bank ≤ rom_banks after any write to the
0x2000-0x3FFF select window; MBC2 rewrites 0 to 1 on its 4-bit latch,
giving 0 < current_rom_bank ≤ 15 but possibly above rom_banks; MBC1
and MBC5 store a raw latch that can be 0 or exceed rom_banks and
defer reduction to read time. -/
theorem mbc_bank_select_bounds (s : CartState) (address value : Nat)
    (h1 : 0x2000 ≤ address) (h2 : address < 0x4000) (hrb : 2 ≤ s.rom_banks) :
    (s.model = CartModel.mbc3 →
        0 < (write_cart_rom s address value).current_rom_bank ∧
          (write_cart_rom s address value).current_rom_bank ≤ s.rom_banks) ∧
      (s.model = CartModel.mbc2 →
        0 < (write_cart_rom s address value).current_rom_bank ∧
          (write_cart_rom s address value).current_rom_bank ≤ 15) := by
  constructor
  · intro hm
    unfold write_cart_rom
    rw [hm]
    dsimp only
    rw [if_neg (by omega), if_pos h2]
    have hmod : (value &&& 0x7F) % s.rom_banks < s.rom_banks :=
      Nat.mod_lt _ (by omega)
    dsimp only
    split <;> exact ⟨by omega, by omega⟩
  · intro hm
    unfold write_cart_rom
    rw [hm]
    dsimp only
    rw [if_neg (by omega), if_pos h2]
    have hand : value &&& 0xF ≤ 0xF := Nat.and_le_right
    dsimp only
    split <;> exact ⟨by omega, by omega⟩

/-- Witness for C3 amended: an MBC3 cartridge state receiving bank
value 0 stores bank 1 ≤ 2, and the MBC2 bound holds likewise. -/
theorem mbc_bank_select_bounds_witness :
    (({ cart_ram1 with model := CartModel.mbc3 } : CartState).model = CartModel.mbc3 →
        0 < (write_cart_rom { cart_ram1 with model := CartModel.mbc3 } 0x2000 0).current_rom_bank ∧
          (write_cart_rom { cart_ram1 with model := CartModel.mbc3 } 0x2000 0).current_rom_bank ≤
            ({ cart_ram1 with model := CartModel.mbc3 } : CartState).rom_banks) ∧
      (({ cart_ram1 with model := CartModel.mbc3 } : CartState).model = CartModel.mbc2 →
        0 < (write_cart_rom { cart_ram1 with model := CartModel.mbc3 } 0x2000 0).current_rom_bank ∧
          (write_cart_rom { cart_ram1 with model := CartModel.mbc3 } 0x2000 0).current_rom_bank ≤ 15) :=
  mbc_bank_select_bounds { cart_ram1 with model := CartModel.mbc3 } 0x2000 0
    (by norm_num) (by norm_num) (by decide)

/-- C4 evaluation at the failing input: an unprotected MBC1
cartridge-RAM store (address 0x0000 in the 0xA000 window, value 0x42)
lands in RAM but leaves write_ram_flag false and the scheduler -- in
particular next_event[CART] -- completely untouched, so no save is
scheduled; only the MBC3 RTC branch of write_cart_ram sets the flag
and schedules the CART token. -/
theorem cart_ram_write_not_persisted :
    (write_cart_ram cart_ram1 reset_sync 0 0x42).1.write_ram_flag = false ∧
      (write_cart_ram cart_ram1 reset_sync 0 0x42).2 = reset_sync ∧
      (write_cart_ram cart_ram1 reset_sync 0 0x42).1.ram 0 = 0x42 := by
  refine ⟨rfl, rfl, ?_⟩
  show Function.update cart_ram1.ram (get_cart_mbc1_ram_offset cart_ram1 0) 0x42 0 = 0x42
  have hoff : get_cart_mbc1_ram_offset cart_ram1 0 = 0 := by decide
  rw [hoff]
  simp

/-- C7 evaluation at the failing input: on the 32-bank MBC1 cart,
selecting bank 0x20 (write 0x00 to the 0x2000 window, then 0x01 to
the 0x4000 window) stores current_rom_bank = 0x20; the read path then
reduces 0x20 mod 128 (nonzero, so no 0-to-1 rewrite) and mod 32,
reaching bank 0, and the unsigned (bank - 1) * 16384 offset wraps so
that the read at 0x4000 returns ROM byte 0x0000 -- bank 0 -- instead
of the ROM byte 0x4000 of bank 1 that the specified rewrite-then-wrap
rule produces. -/
theorem mbc1_bank_wrap_reads_bank_zero :
    (write_cart_rom (write_cart_rom cart32 0x2000 0x00) 0x4000 0x01).current_rom_bank = 0x20 ∧
      read_cart_rom (write_cart_rom (write_cart_rom cart32 0x2000 0x00) 0x4000 0x01) 0x4000 = 0 ∧
      cart32.rom 0x4000 = 1 := by
  refine ⟨by decide, by decide, by decide⟩

/-! ### HDMA theorems -/

theorem copy_hdma_trace_confined (mem : Nat → Nat) (len : Nat) :
    ∀ (src dst : Nat), ∀ p ∈ copy_hdma_trace mem src dst len,
      0x8000 ≤ p.1 ∧ p.1 ≤ 0x9FFF := by
  induction len with
  | zero =>
      intro src dst p hp
      simp [copy_hdma_trace] at hp
  | succ n ih =>
      intro src dst p hp
      simp only [copy_hdma_trace, List.mem_cons] at hp
      rcases hp with h | h
      · subst h
        dsimp only
        omega
      · exact ih _ _ p h

/-- C10: every byte transferred by an HDMA copy -- whether by the
immediate blocking transfer of start_hdma or by a per-HBLANK 16-byte
block -- is written to 0x8000 + (destination mod 0x2000), hence to an
address inside the VRAM window 0x8000-0x9FFF, for every source
address, destination offset and length. -/
theorem hdma_confined_to_vram (mem : Nat → Nat) (h : HdmaState) :
    (∀ p ∈ (start_hdma_immediate mem h).2, 0x8000 ≤ p.1 ∧ p.1 ≤ 0x9FFF) ∧
      (∀ p ∈ (hblank_hdma mem h).2, 0x8000 ≤ p.1 ∧ p.1 ≤ 0x9FFF) := by
  constructor
  · intro p hp
    exact copy_hdma_trace_confined mem _ _ _ p hp
  · intro p hp
    have hp2 : p ∈ copy_hdma_trace mem h.source_address h.destination_offset 0x10 := by
      unfold hblank_hdma at hp
      dsimp only at hp
      split at hp <;> exact hp
    exact copy_hdma_trace_confined mem _ _ _ p hp2

/-- Witness for C10: the first write of a one-block HBLANK transfer
from a concrete HDMA state lands at 0x8000. -/
theorem hdma_confined_to_vram_witness :
    0x8000 ≤ ((0x8000, 0) : Nat × Nat).1 ∧ ((0x8000, 0) : Nat × Nat).1 ≤ 0x9FFF :=
  (hdma_confined_to_vram (fun _ => 0) ⟨0, 0, 0, false⟩).2 (0x8000, 0)
    (by simp [hblank_hdma, copy_hdma, copy_hdma_trace])

/-! ### CPU interrupt-service theorems -/

theorem lowest_active_interrupt_spec : ∀ a, a < 32 → a ≠ 0 →
    a.testBit (lowest_active_interrupt a) = true ∧
      lowest_active_interrupt a < 5 ∧
      ∀ j, j < lowest_active_interrupt a → a.testBit j = false := by
  decide

theorem handlers_value : ∀ a, a < 32 → a ≠ 0 →
    gameboy_interrupt_request_handlers.getD (lowest_active_interrupt a) 0 =
      0x40 + 8 * lowest_active_interrupt a := by
  decide

theorem ack_mask_bits : ∀ f, f < 256 → ∀ i, i < 5 →
    ((f &&& (4294967295 ^^^ (1 <<< i))) % 256).testBit i = false ∧
      ∀ j, j < 8 → j ≠ i →
        ((f &&& (4294967295 ^^^ (1 <<< i))) % 256).testBit j = f.testBit j := by
  decide

theorem testBit_ge_eight {x j : Nat} (hx : x < 256) (hj : 8 ≤ j) :
    x.testBit j = false := by
  apply Nat.testBit_lt_two_pow
  calc x < 256 := hx
    _ ≤ 2 ^ j := by
        have h8 : (256 : Nat) = 2 ^ 8 := by norm_num
        rw [h8]
        exact Nat.pow_le_pow_right (by norm_num) hj

theorem ack_mask_testBit (f i : Nat) (hf : f < 256) (hi : i < 5) :
    ((f &&& (4294967295 ^^^ (1 <<< i))) % 256).testBit i = false ∧
      ∀ j, j ≠ i →
        ((f &&& (4294967295 ^^^ (1 <<< i))) % 256).testBit j = f.testBit j := by
  refine ⟨(ack_mask_bits f hf i hi).1, ?_⟩
  intro j hj
  by_cases hj8 : j < 8
  · exact (ack_mask_bits f hf i hi).2 j hj8 hj
  · have hm : (f &&& (4294967295 ^^^ (1 <<< i))) % 256 < 256 :=
      Nat.mod_lt _ (by norm_num)
    rw [testBit_ge_eight hm (by omega), testBit_ge_eight hf (by omega)]

/-- C2: whenever check_cpu_interrupts runs with IF & IE & 0x1F
nonzero, halted is cleared even when IME is false; when IME is also
true, the state decomposes as cpu_interrupt_finish after
cpu_interrupt_prelude (definitionally), and: the serviced token i is
the lowest-numbered pending-and-enabled bit (VSYNC=0 .. INPUT=4,
lowest wins); IME and the delayed-IME flag are cleared; the prelude
charges exactly 12 T-states before any push; PC is pushed as two
byte stores, high byte at SP-1 and low byte at SP-2 (mod 2^16), each
costing 4 further T-states; exactly bit i of IF is cleared, every
other bit surviving; and PC is loaded with the fixed vector
0x40 + 8 i, i.e. 0x40/0x48/0x50/0x58/0x60. -/
theorem check_cpu_interrupts_spec (st : CpuBusState)
    (hactive : st.interrupt_request_enable &&& st.interrupt_request_flags &&& 0x1F ≠ 0)
    (hpc : st.cpu.program_counter < 65536)
    (hsp : st.cpu.stack_pointer < 65536)
    (hif : st.interrupt_request_flags < 256) :
    (check_cpu_interrupts st).cpu.halted = false ∧
      (st.cpu.interrupt_master_enable = true →
        (st.interrupt_request_enable &&& st.interrupt_request_flags &&& 0x1F).testBit
            (lowest_active_interrupt
              (st.interrupt_request_enable &&& st.interrupt_request_flags &&& 0x1F)) = true ∧
        (∀ j, j < lowest_active_interrupt
              (st.interrupt_request_enable &&& st.interrupt_request_flags &&& 0x1F) →
            (st.interrupt_request_enable &&& st.interrupt_request_flags &&& 0x1F).testBit j
              = false) ∧
        (check_cpu_interrupts st).cpu.interrupt_master_enable = false ∧
        (check_cpu_interrupts st).cpu.interrupt_request_enable_next = false ∧
        (cpu_interrupt_prelude
            { st with cpu := { st.cpu with halted := false } }).timestamp
          = st.timestamp + 12 ∧
        (check_cpu_interrupts st).mem ((st.cpu.stack_pointer + 65535) % 65536)
          = st.cpu.program_counter >>> 8 ∧
        (check_cpu_interrupts st).mem ((st.cpu.stack_pointer + 65534) % 65536)
          = st.cpu.program_counter &&& 0xFF ∧
        (check_cpu_interrupts st).cpu.stack_pointer
          = (st.cpu.stack_pointer + 65534) % 65536 ∧
        (check_cpu_interrupts st).interrupt_request_flags.testBit
            (lowest_active_interrupt
              (st.interrupt_request_enable &&& st.interrupt_request_flags &&& 0x1F)) = false ∧
        (∀ j, j ≠ lowest_active_interrupt
              (st.interrupt_request_enable &&& st.interrupt_request_flags &&& 0x1F) →
            (check_cpu_interrupts st).interrupt_request_flags.testBit j
              = st.interrupt_request_flags.testBit j) ∧
        (check_cpu_interrupts st).cpu.program_counter
          = 0x40 + 8 * lowest_active_interrupt
              (st.interrupt_request_enable &&& st.interrupt_request_flags &&& 0x1F) ∧
        (check_cpu_interrupts st).timestamp = st.timestamp + 24) := by
  have hlt32 : st.interrupt_request_enable &&& st.interrupt_request_flags &&& 0x1F < 32 :=
    lt_of_le_of_lt Nat.and_le_right (by norm_num)
  obtain ⟨hbit, hi5, hleast⟩ :=
    lowest_active_interrupt_spec _ hlt32 hactive
  by_cases hime : st.cpu.interrupt_master_enable = true
  · have heval : check_cpu_interrupts st =
        cpu_interrupt_finish
          (cpu_interrupt_prelude { st with cpu := { st.cpu with halted := false } })
          (lowest_active_interrupt
            (st.interrupt_request_enable &&& st.interrupt_request_flags &&& 0x1F)) := by
      unfold check_cpu_interrupts
      rw [if_neg hactive]
      simp [hime]
    rw [heval]
    obtain ⟨hack1, hack2⟩ :=
      ack_mask_testBit st.interrupt_request_flags _ hif hi5
    have hsh : (st.cpu.program_counter >>> 8) % 256 = st.cpu.program_counter >>> 8 := by
      have h2 : (2 : Nat) ^ 8 = 256 := by norm_num
      rw [Nat.shiftRight_eq_div_pow, h2]
      omega
    have hlow : (st.cpu.program_counter &&& 0xFF) % 256 = st.cpu.program_counter &&& 0xFF := by
      have hle : st.cpu.program_counter &&& 0xFF ≤ 0xFF := Nat.and_le_right
      omega
    refine ⟨rfl, fun _ => ⟨hbit, hleast, rfl, rfl, rfl, ?_, ?_, ?_, ?_, ?_, ?_, ?_⟩⟩
    · simp only [cpu_interrupt_finish, cpu_interrupt_prelude, cpu_pushw, cpu_pushb,
        write_cpu, cpu_clock_tick, cpu_load_pc]
      rw [Function.update_apply, if_neg (by omega), Function.update_apply, if_pos rfl]
      exact hsh
    · simp only [cpu_interrupt_finish, cpu_interrupt_prelude, cpu_pushw, cpu_pushb,
        write_cpu, cpu_clock_tick, cpu_load_pc]
      rw [Function.update_apply, if_pos (by omega)]
      exact hlow
    · simp only [cpu_interrupt_finish, cpu_interrupt_prelude, cpu_pushw, cpu_pushb,
        write_cpu, cpu_clock_tick, cpu_load_pc]
      omega
    · simp only [cpu_interrupt_finish, cpu_interrupt_prelude, cpu_pushw, cpu_pushb,
        write_cpu, cpu_clock_tick, cpu_load_pc]
      exact hack1
    · intro j hj
      simp only [cpu_interrupt_finish, cpu_interrupt_prelude, cpu_pushw, cpu_pushb,
        write_cpu, cpu_clock_tick, cpu_load_pc]
      exact hack2 j hj
    · simp only [cpu_interrupt_finish, cpu_interrupt_prelude, cpu_pushw, cpu_pushb,
        write_cpu, cpu_clock_tick, cpu_load_pc]
      exact handlers_value _ hlt32 hactive
    · simp only [cpu_interrupt_finish, cpu_interrupt_prelude, cpu_pushw, cpu_pushb,
        write_cpu, cpu_clock_tick, cpu_load_pc]
      omega
  · have heval : check_cpu_interrupts st =
        { st with cpu := { st.cpu with halted := false } } := by
      unfold check_cpu_interrupts
      rw [if_neg hactive]
      simp only [Bool.not_eq_true] at hime
      simp [hime]
    rw [heval]
    exact ⟨rfl, fun hcontra => absurd hcontra hime⟩

/-- Concrete interrupt scenario: IME on, TIMER (bit 2) pending and
enabled, reset-style CPU registers, zeroed memory. -/
def cpu_bus0 : CpuBusState :=
  { cpu := { cpu0 with interrupt_master_enable := true }
    interrupt_request_flags := 0xE4
    interrupt_request_enable := 0x04
    timestamp := 0
    mem := fun _ => 0 }

/-- Witness for C2: servicing the pending TIMER interrupt from the
concrete state clears halted, jumps to vector 0x50 and costs 24
T-states in total. -/
theorem check_cpu_interrupts_spec_witness :
    (check_cpu_interrupts cpu_bus0).cpu.halted = false ∧
      (check_cpu_interrupts cpu_bus0).cpu.program_counter = 0x50 ∧
      (check_cpu_interrupts cpu_bus0).timestamp = 24 := by
  have h := check_cpu_interrupts_spec cpu_bus0 (by decide) (by decide) (by decide) (by decide)
  obtain ⟨h1, h2⟩ := h
  have h3 := h2 rfl
  refine ⟨h1, ?_, ?_⟩
  · have hpc := h3.2.2.2.2.2.2.2.2.2.2.1
    simpa using hpc
  · have hts := h3.2.2.2.2.2.2.2.2.2.2.2
    simpa using hts

/-! ### DAA theorems -/

/-- C8: process_daa behaves exactly as specified for every flag state
and byte value of A -- N set: subtract 0x06 when H and 0x60 when C;
N clear: add 0x06 when the low nibble exceeds 9 or H is set, and add
0x60 (reporting carry) when A exceeds 0x99 or C is set; afterwards Z
mirrors the result and H clears -- and in the concrete scenario
ADD A,A with A = 0x45 followed by DAA, A becomes 0x90 with C clear. -/
theorem process_daa_spec (st : CpuState) (ha : st.a < 256) :
    (st.null_flag = true →
        (process_daa st).a =
          (st.a + 256 - ((if st.half_carry_flag then 0x06 else 0) +
              (if st.carry_flag then 0x60 else 0))) % 256) ∧
      (st.null_flag = false →
        (process_daa st).a =
          (st.a + (if 9 < st.a % 16 ∨ st.half_carry_flag = true then 0x06 else 0) +
              (if 0x99 < st.a ∨ st.carry_flag = true then 0x60 else 0)) % 256 ∧
          (process_daa st).carry_flag = (decide (0x99 < st.a) || st.carry_flag)) ∧
      (process_daa st).zero_flag = decide ((process_daa st).a = 0) ∧
      (process_daa st).half_carry_flag = false ∧
      (process_daa (process_add_a_a { cpu0 with a := 0x45 })).a = 0x90 ∧
      (process_daa (process_add_a_a { cpu0 with a := 0x45 })).carry_flag = false := by
  have h15 : st.a &&& 0xF = st.a % 16 := by
    have h := Nat.and_pow_two_sub_one_eq_mod st.a 4
    norm_num at h
    exact h
  refine ⟨?_, ?_, ?_, ?_, by decide, by decide⟩
  · intro hn
    cases hh : st.half_carry_flag <;> cases hc : st.carry_flag <;>
      simp [process_daa, hn, hh, hc]
  · intro hn
    cases hh : st.half_carry_flag <;> cases hc : st.carry_flag <;>
      constructor <;>
        (by_cases h9 : 9 < st.a % 16 <;> by_cases h99 : 0x99 < st.a <;>
          simp [process_daa, hn, hh, hc, h15, h9, h99] <;> decide)
  · unfold process_daa
    dsimp only
    split <;> rfl
  · unfold process_daa
    dsimp only
    split <;> rfl

/-! ### MMIO read-back theorems -/

theorem sync_ppu_zero (p : PpuState) : sync_ppu p 0 = p := by
  unfold sync_ppu
  split
  · rfl
  · rfl

theorem set_lcd_stat_zero (p : PpuState) (v : Nat) :
    set_lcd_stat p 0 0 v =
      { p with mode0_flag := v.testBit 3, mode1_flag := v.testBit 4,
               mode2_flag := v.testBit 5, lyc_flag := v.testBit 6 } := by
  unfold set_lcd_stat
  rw [sync_ppu_zero]
  dsimp only
  split
  · rw [sync_ppu_zero]
  · rfl

theorem get_ppu_mode_lt (p : PpuState) : get_ppu_mode p < 4 := by
  unfold get_ppu_mode
  split
  · norm_num
  · split
    · norm_num
    · split <;> norm_num

theorem byte_recompose : ∀ v, v < 256 →
    ((if v.testBit 0 then 1 else 0) ||| (if v.testBit 1 then 2 else 0)
        ||| (if v.testBit 2 then 4 else 0) ||| (if v.testBit 3 then 8 else 0)
        ||| (if v.testBit 4 then 16 else 0) ||| (if v.testBit 5 then 32 else 0)
        ||| (if v.testBit 6 then 64 else 0) ||| (if v.testBit 7 then 128 else 0)) = v := by
  decide

theorem stat_selector_mask : ∀ v, v < 256 → ∀ m, m < 4 →
    ((m ||| 0 ||| (if v.testBit 3 then 8 else 0) ||| (if v.testBit 4 then 16 else 0)
        ||| (if v.testBit 5 then 32 else 0) ||| (if v.testBit 6 then 64 else 0)) &&& 0x78
      = v &&& 0x78) ∧
    ((m ||| 4 ||| (if v.testBit 3 then 8 else 0) ||| (if v.testBit 4 then 16 else 0)
        ||| (if v.testBit 5 then 32 else 0) ||| (if v.testBit 6 then 64 else 0)) &&& 0x78
      = v &&& 0x78) := by
  decide

theorem nr10_recompose : ∀ v, v < 256 →
    ((v.testBit 3 = true →
        0x80 ||| (v &&& 0x7) ||| 8 ||| (((v >>> 4) &&& 0x7) <<< 4) = (v &&& 0x7F) ||| 0x80) ∧
      (v.testBit 3 = false →
        0x80 ||| (v &&& 0x7) ||| (((v >>> 4) &&& 0x7) <<< 4) = (v &&& 0x7F) ||| 0x80)) := by
  decide

theorem duty_recompose : ∀ v, v < 256 →
    ((v >>> 6) <<< 6) ||| 0x3F = (v &&& 0xC0) ||| 0x3F := by
  decide

theorem enable_bit_recompose : ∀ v, v < 256 →
    ((v &&& 0x40 ≠ 0 → (64 : Nat) ||| 0xBF = (v &&& 0x40) ||| 0xBF) ∧
      (¬ (v &&& 0x40 ≠ 0) → (0 : Nat) ||| 0xBF = (v &&& 0x40) ||| 0xBF)) := by
  decide

theorem high_bit_recompose : ∀ v, v < 256 →
    ((v &&& 0x80 ≠ 0 → (128 : Nat) ||| 0x7F = (v &&& 0x80) ||| 0x7F) ∧
      (¬ (v &&& 0x80 ≠ 0) → (0 : Nat) ||| 0x7F = (v &&& 0x80) ||| 0x7F)) := by
  decide

theorem volume_recompose : ∀ v, v < 256 →
    (((v >>> 5) &&& 3) <<< 5) ||| 0x9F = (v &&& 0x60) ||| 0x9F := by
  decide

theorem tac_recompose : ∀ v, v < 256 →
    ((v &&& 4 ≠ 0 → (v &&& 3) ||| 4 = v &&& 7) ∧
      (¬ (v &&& 4 ≠ 0) → v &&& 3 = v &&& 7)) := by
  decide

theorem vbk_recompose : ∀ v, v < 256 →
    (if v % 2 = 1 then (1 : Nat) else 0) ||| 254 = v % 2 ||| 254 := by
  decide

theorem bcps_recompose : ∀ v, v < 256 →
    ((v &&& 0x80 ≠ 0 → (128 : Nat) ||| (v &&& 0x3F) = v &&& 0xBF) ∧
      (¬ (v &&& 0x80 ≠ 0) → v &&& 0x3F = v &&& 0xBF)) := by
  decide

theorem nr52_bit7_value : ∀ v, v < 256 →
    ((v &&& 0x80 ≠ 0 → v &&& 0x80 = 128) ∧
      (¬ (v &&& 0x80 ≠ 0) → v &&& 0x80 = 0)) := by
  decide

theorem lcdc_roundtrip (p : PpuState) (v : Nat) (hv : v < 256) :
    get_lcdc (set_lcdc p 0 0 v) = v := by
  unfold set_lcdc
  rw [sync_ppu_zero]
  dsimp only
  split
  · split
    · rw [sync_ppu_zero]
      unfold get_lcdc
      exact byte_recompose v hv
    · rw [sync_ppu_zero]
      unfold get_lcdc
      exact byte_recompose v hv
  · rename_i heq
    unfold get_lcdc
    dsimp only
    have h7 : v.testBit 7 = p.master_enable := not_ne_iff.mp heq
    rw [← h7]
    exact byte_recompose v hv

theorem stat_roundtrip (p : PpuState) (v : Nat) (hv : v < 256)
    (hmaster : p.master_enable = true) :
    get_lcd_stat (set_lcd_stat p 0 0 v) &&& 0x78 = v &&& 0x78 := by
  rw [set_lcd_stat_zero]
  unfold get_lcd_stat
  dsimp only
  rw [hmaster]
  simp only [Bool.true_eq_false, if_false]
  by_cases hly : p.ly = p.lyc
  · simp only [hly, if_pos rfl]
    exact (stat_selector_mask v hv _ (get_ppu_mode_lt _)).2
  · rw [if_neg hly]
    exact (stat_selector_mask v hv _ (get_ppu_mode_lt _)).1

theorem io_write_only_reads (s : IoState) :
    io_read s 0xFF13 = 0xFF ∧ io_read s 0xFF18 = 0xFF ∧ io_read s 0xFF1D = 0xFF ∧
      io_read s 0xFF20 = 0xFF ∧ io_read s 0xFF01 = 0xFF := by
  refine ⟨?_, ?_, ?_, ?_, ?_⟩ <;> simp [io_read]

theorem io_rw_nr10 (s : IoState) (v : Nat) (hv : v < 256) (hspu : s.spu.enable = true) :
    io_read (io_write s 0xFF10 v) 0xFF10 = (v &&& 0x7F) ||| 0x80 := by
  cases hs : v.testBit 3 <;>
    simp [io_write, io_read, reload_spu_sweep, hspu, hs]
  · exact (nr10_recompose v hv).2 hs
  · exact (nr10_recompose v hv).1 hs

theorem io_rw_nr11 (s : IoState) (v : Nat) (hv : v < 256) (hspu : s.spu.enable = true) :
    io_read (io_write s 0xFF11 v) 0xFF11 = (v &&& 0xC0) ||| 0x3F := by
  simp [io_write, io_read, hspu]
  exact duty_recompose v hv

theorem io_rw_nr12 (s : IoState) (v : Nat) (hspu : s.spu.enable = true) :
    io_read (io_write s 0xFF12 v) 0xFF12 = v := by
  simp [io_write, io_read, hspu]

theorem io_rw_nr14 (s : IoState) (v : Nat) (hv : v < 256) (hspu : s.spu.enable = true) :
    io_read (io_write s 0xFF14 v) 0xFF14 = (v &&& 0x40) ||| 0xBF := by
  by_cases h6 : v &&& 0x40 ≠ 0 <;> by_cases h7 : v &&& 0x80 ≠ 0 <;>
    simp [io_write, io_read, start_spu_nr1, hspu, h6, h7] <;>
    first
      | exact (enable_bit_recompose v hv).1 h6
      | exact (enable_bit_recompose v hv).2 h6

theorem io_rw_nr21 (s : IoState) (v : Nat) (hv : v < 256) (hspu : s.spu.enable = true) :
    io_read (io_write s 0xFF16 v) 0xFF16 = (v &&& 0xC0) ||| 0x3F := by
  simp [io_write, io_read, hspu]
  exact duty_recompose v hv

theorem io_rw_nr22 (s : IoState) (v : Nat) (hspu : s.spu.enable = true) :
    io_read (io_write s 0xFF17 v) 0xFF17 = v := by
  simp [io_write, io_read, hspu]

theorem io_rw_nr24 (s : IoState) (v : Nat) (hv : v < 256) (hspu : s.spu.enable = true) :
    io_read (io_write s 0xFF19 v) 0xFF19 = (v &&& 0x40) ||| 0xBF := by
  by_cases h6 : v &&& 0x40 ≠ 0 <;> by_cases h7 : v &&& 0x80 ≠ 0 <;>
    simp [io_write, io_read, start_spu_nr2, hspu, h6, h7] <;>
    first
      | exact (enable_bit_recompose v hv).1 h6
      | exact (enable_bit_recompose v hv).2 h6

theorem io_rw_nr30 (s : IoState) (v : Nat) (hv : v < 256) (hspu : s.spu.enable = true) :
    io_read (io_write s 0xFF1A v) 0xFF1A = (v &&& 0x80) ||| 0x7F := by
  by_cases h7 : v &&& 0x80 ≠ 0 <;>
    simp [io_write, io_read, hspu, h7] <;>
    first
      | exact (high_bit_recompose v hv).1 h7
      | exact (high_bit_recompose v hv).2 h7

theorem io_rw_nr31 (s : IoState) (v : Nat) (hspu : s.spu.enable = true) :
    io_read (io_write s 0xFF1B v) 0xFF1B = v := by
  simp [io_write, io_read, hspu]

theorem io_rw_nr32 (s : IoState) (v : Nat) (hv : v < 256) (hspu : s.spu.enable = true) :
    io_read (io_write s 0xFF1C v) 0xFF1C = (v &&& 0x60) ||| 0x9F := by
  simp [io_write, io_read, hspu]
  exact volume_recompose v hv

theorem io_rw_nr34 (s : IoState) (v : Nat) (hv : v < 256) (hspu : s.spu.enable = true) :
    io_read (io_write s 0xFF1E v) 0xFF1E = (v &&& 0x40) ||| 0xBF := by
  by_cases h6 : v &&& 0x40 ≠ 0 <;> by_cases h7 : v &&& 0x80 ≠ 0 <;>
    cases hne : s.spu.nr3_enable <;>
    simp [io_write, io_read, start_spu_nr3, hspu, h6, h7, hne] <;>
    first
      | exact (enable_bit_recompose v hv).1 h6
      | exact (enable_bit_recompose v hv).2 h6

theorem io_rw_nr42 (s : IoState) (v : Nat) (hspu : s.spu.enable = true) :
    io_read (io_write s 0xFF21 v) 0xFF21 = v := by
  simp [io_write, io_read, hspu]

theorem io_rw_nr43 (s : IoState) (v : Nat) (hspu : s.spu.enable = true) :
    io_read (io_write s 0xFF22 v) 0xFF22 = v := by
  simp [io_write, io_read, hspu]

theorem io_rw_nr44 (s : IoState) (v : Nat) (hv : v < 256) (hspu : s.spu.enable = true) :
    io_read (io_write s 0xFF23 v) 0xFF23 = (v &&& 0x40) ||| 0xBF := by
  by_cases h6 : v &&& 0x40 ≠ 0 <;> by_cases h7 : v &&& 0x80 ≠ 0 <;>
    simp [io_write, io_read, start_spu_nr4, hspu, h6, h7] <;>
    first
      | exact (enable_bit_recompose v hv).1 h6
      | exact (enable_bit_recompose v hv).2 h6

theorem io_rw_nr50 (s : IoState) (v : Nat) (hspu : s.spu.enable = true) :
    io_read (io_write s 0xFF24 v) 0xFF24 = v := by
  simp [io_write, io_read, hspu]

theorem io_rw_nr51 (s : IoState) (v : Nat) (hspu : s.spu.enable = true) :
    io_read (io_write s 0xFF25 v) 0xFF25 = v := by
  simp [io_write, io_read, hspu]

theorem io_nr52_low_bits (s : IoState) :
    io_read s 0xFF26 &&& 0x79 = 0 := by
  cases h2 : s.spu.nr2_running <;> cases h3 : s.spu.nr3_running <;>
    cases he : s.spu.enable <;> simp [io_read, h2, h3, he] <;> decide

theorem io_nr52_bit7 (s : IoState) (v : Nat) (hv : v < 256) :
    io_read (io_write s 0xFF26 v) 0xFF26 &&& 0x80 = v &&& 0x80 := by
  cases hen : s.spu.enable <;> by_cases h7 : v &&& 0x80 ≠ 0 <;>
    cases hr2 : s.spu.nr2_running <;> cases hr3 : s.spu.nr3_running <;>
    simp [io_read, io_write, reset_spu, hen, h7, hr2, hr3] <;>
    first
      | exact ((nr52_bit7_value v hv).1 h7).symm
      | exact ((nr52_bit7_value v hv).2 h7).symm

theorem io_rw_if_reg (s : IoState) (v : Nat) :
    io_read (io_write s 0xFF0F v) 0xFF0F = v ||| 0xE0 := by
  simp [io_write, io_read]

theorem io_rw_ie (s : IoState) (v : Nat) :
    io_read (io_write s 0xFFFF v) 0xFFFF = v := by
  simp [io_write, io_read]

theorem io_rw_div (s : IoState) (v : Nat) :
    io_read (io_write s 0xFF04 v) 0xFF04 = 0 := by
  simp [io_write, io_read]

theorem io_rw_tima (s : IoState) (v : Nat) :
    io_read (io_write s 0xFF05 v) 0xFF05 = v := by
  simp [io_write, io_read]

theorem io_rw_tma (s : IoState) (v : Nat) :
    io_read (io_write s 0xFF06 v) 0xFF06 = v := by
  simp [io_write, io_read]

theorem io_rw_tac (s : IoState) (v : Nat) (hv : v < 256) :
    io_read (io_write s 0xFF07 v) 0xFF07 = v &&& 7 := by
  by_cases h2 : v &&& 4 ≠ 0 <;>
    simp [io_write, io_read, set_timer_configuration, get_timer_configuration, h2] <;>
    first
      | exact (tac_recompose v hv).1 h2
      | exact (tac_recompose v hv).2 h2

theorem io_rw_lcdc (s : IoState) (v : Nat) (hv : v < 256) :
    io_read (io_write s 0xFF40 v) 0xFF40 = v := by
  simp [io_write, io_read]
  exact lcdc_roundtrip s.ppu v hv

theorem io_rw_stat (s : IoState) (v : Nat) (hv : v < 256)
    (hmaster : s.ppu.master_enable = true) :
    io_read (io_write s 0xFF41 v) 0xFF41 &&& 0x78 = v &&& 0x78 := by
  simp [io_write, io_read]
  exact stat_roundtrip s.ppu v hv hmaster

theorem io_rw_scroll_y (s : IoState) (v : Nat) :
    io_read (io_write s 0xFF42 v) 0xFF42 = v := by
  simp [io_write, io_read]

theorem io_rw_scroll_x (s : IoState) (v : Nat) :
    io_read (io_write s 0xFF43 v) 0xFF43 = v := by
  simp [io_write, io_read]

theorem io_rw_lyc (s : IoState) (v : Nat) :
    io_read (io_write s 0xFF45 v) 0xFF45 = v := by
  simp [io_write, io_read]

theorem io_rw_bgp (s : IoState) (v : Nat) :
    io_read (io_write s 0xFF47 v) 0xFF47 = v := by
  simp [io_write, io_read]

theorem io_rw_obp0 (s : IoState) (v : Nat) :
    io_read (io_write s 0xFF48 v) 0xFF48 = v := by
  simp [io_write, io_read]

theorem io_rw_obp1 (s : IoState) (v : Nat) :
    io_read (io_write s 0xFF49 v) 0xFF49 = v := by
  simp [io_write, io_read]

theorem io_rw_window_y (s : IoState) (v : Nat) :
    io_read (io_write s 0xFF4A v) 0xFF4A = v := by
  simp [io_write, io_read]

theorem io_rw_window_x (s : IoState) (v : Nat) :
    io_read (io_write s 0xFF4B v) 0xFF4B = v := by
  simp [io_write, io_read]

theorem io_rw_vbk (s : IoState) (v : Nat) (hv : v < 256) (hgbc : s.gbc = true) :
    io_read (io_write s 0xFF4F v) 0xFF4F = (v &&& 1) ||| 0xFE := by
  simp [io_write, io_read, hgbc]
  exact vbk_recompose v hv

theorem io_rw_svbk (s : IoState) (v : Nat) (hgbc : s.gbc = true) :
    io_read (io_write s 0xFF70 v) 0xFF70 = (v &&& 7) ||| 0xF8 := by
  simp [io_write, io_read, hgbc]

theorem io_rw_bcps (s : IoState) (v : Nat) (hv : v < 256) (hgbc : s.gbc = true) :
    io_read (io_write s 0xFF68 v) 0xFF68 = v &&& 0xBF := by
  by_cases h7 : v &&& 0x80 ≠ 0 <;>
    simp [io_write, io_read, hgbc, h7] <;>
    first
      | exact (bcps_recompose v hv).1 h7
      | exact (bcps_recompose v hv).2 h7

theorem io_rw_ocps (s : IoState) (v : Nat) (hv : v < 256) (hgbc : s.gbc = true) :
    io_read (io_write s 0xFF6A v) 0xFF6A = v &&& 0xBF := by
  by_cases h7 : v &&& 0x80 ≠ 0 <;>
    simp [io_write, io_read, hgbc, h7] <;>
    first
      | exact (bcps_recompose v hv).1 h7
      | exact (bcps_recompose v hv).2 h7

/-- Concrete CPU state for the DAA witness: A = 0x9A with N, H and C
set, as after a BCD subtraction that borrowed in both nibbles. -/
def daa_state : CpuState :=
  { cpu0 with a := 0x9A, null_flag := true, half_carry_flag := true, carry_flag := true }

/-- Witness for C8: the DAA description evaluated at A = 0x9A with N,
H and C all set. -/
theorem process_daa_spec_witness :
    (daa_state.null_flag = true →
      (process_daa daa_state).a =
        (daa_state.a + 256 -
          ((if daa_state.half_carry_flag then 0x06 else 0) +
            (if daa_state.carry_flag then 0x60 else 0))) % 256) ∧
      (process_daa daa_state).half_carry_flag = false :=
  have h := process_daa_spec daa_state (by decide)
  ⟨h.1, h.2.2.2.1⟩

/-- C9 counterexample: writing 0x80 to NR52 (0xFF26) and reading it
back yields 0x80, whose unused bits 4-6 are 0 rather than the forced
high value 0x70 the claim requires. -/
theorem nr52_unused_bits_read_zero :
    io_read (io_write io0 0xFF26 0x80) 0xFF26 = 0x80 ∧
      io_read (io_write io0 0xFF26 0x80) 0xFF26 &&& 0x70 = 0 := by
  constructor <;> decide

/-- C9 amended: write-only registers (NR13, NR23, NR33, NR41, serial
data SB) read back 0xFF, and a read after a write of a readable
register returns the written readable bits; the sound, banking and
palette-index registers force their unused bits high (NR10 bit 7,
NR11/NR21 bits 0-5, NR14/NR24/NR34/NR44 bits 0-5 and 7, NR30 bits
0-6, NR32 bits 0-4 and 7, VBK bits 1-7, SVBK bits 3-7), IF forces
bits 5-7 at write time, but not every register does: NR52 reports
only bits 1, 2 and 7, its unused bits 3-6 and bit 0 reading 0 on
every state; TAC reads back only its low 3 bits, BCPS/OCPS leave
their unused bit 6 low, STAT (bits 3-6 readable, checked with the
LCD on) leaves bit 7 low, and the timer ports DIV/TIMA/TMA read the
live counter state (at the write instant DIV reads 0 and TIMA/TMA the
written byte). -/
theorem io_readback_spec (s : IoState) (v : Nat) (hv : v < 256) :
    (io_read s 0xFF13 = 0xFF ∧ io_read s 0xFF18 = 0xFF ∧ io_read s 0xFF1D = 0xFF ∧
        io_read s 0xFF20 = 0xFF ∧ io_read s 0xFF01 = 0xFF) ∧
      (io_read s 0xFF26 &&& 0x79 = 0 ∧
        io_read (io_write s 0xFF26 v) 0xFF26 &&& 0x80 = v &&& 0x80) ∧
      (s.spu.enable = true →
        io_read (io_write s 0xFF10 v) 0xFF10 = (v &&& 0x7F) ||| 0x80 ∧
        io_read (io_write s 0xFF11 v) 0xFF11 = (v &&& 0xC0) ||| 0x3F ∧
        io_read (io_write s 0xFF12 v) 0xFF12 = v ∧
        io_read (io_write s 0xFF14 v) 0xFF14 = (v &&& 0x40) ||| 0xBF ∧
        io_read (io_write s 0xFF16 v) 0xFF16 = (v &&& 0xC0) ||| 0x3F ∧
        io_read (io_write s 0xFF17 v) 0xFF17 = v ∧
        io_read (io_write s 0xFF19 v) 0xFF19 = (v &&& 0x40) ||| 0xBF ∧
        io_read (io_write s 0xFF1A v) 0xFF1A = (v &&& 0x80) ||| 0x7F ∧
        io_read (io_write s 0xFF1B v) 0xFF1B = v ∧
        io_read (io_write s 0xFF1C v) 0xFF1C = (v &&& 0x60) ||| 0x9F ∧
        io_read (io_write s 0xFF1E v) 0xFF1E = (v &&& 0x40) ||| 0xBF ∧
        io_read (io_write s 0xFF21 v) 0xFF21 = v ∧
        io_read (io_write s 0xFF22 v) 0xFF22 = v ∧
        io_read (io_write s 0xFF23 v) 0xFF23 = (v &&& 0x40) ||| 0xBF ∧
        io_read (io_write s 0xFF24 v) 0xFF24 = v ∧
        io_read (io_write s 0xFF25 v) 0xFF25 = v) ∧
      (io_read (io_write s 0xFF0F v) 0xFF0F = v ||| 0xE0 ∧
        io_read (io_write s 0xFFFF v) 0xFFFF = v ∧
        io_read (io_write s 0xFF04 v) 0xFF04 = 0 ∧
        io_read (io_write s 0xFF05 v) 0xFF05 = v ∧
        io_read (io_write s 0xFF06 v) 0xFF06 = v ∧
        io_read (io_write s 0xFF07 v) 0xFF07 = v &&& 7 ∧
        io_read (io_write s 0xFF40 v) 0xFF40 = v ∧
        io_read (io_write s 0xFF42 v) 0xFF42 = v ∧
        io_read (io_write s 0xFF43 v) 0xFF43 = v ∧
        io_read (io_write s 0xFF45 v) 0xFF45 = v ∧
        io_read (io_write s 0xFF47 v) 0xFF47 = v ∧
        io_read (io_write s 0xFF48 v) 0xFF48 = v ∧
        io_read (io_write s 0xFF49 v) 0xFF49 = v ∧
        io_read (io_write s 0xFF4A v) 0xFF4A = v ∧
        io_read (io_write s 0xFF4B v) 0xFF4B = v) ∧
      (s.ppu.master_enable = true →
        io_read (io_write s 0xFF41 v) 0xFF41 &&& 0x78 = v &&& 0x78) ∧
      (s.gbc = true →
        io_read (io_write s 0xFF4F v) 0xFF4F = (v &&& 1) ||| 0xFE ∧
        io_read (io_write s 0xFF70 v) 0xFF70 = (v &&& 7) ||| 0xF8 ∧
        io_read (io_write s 0xFF68 v) 0xFF68 = v &&& 0xBF ∧
        io_read (io_write s 0xFF6A v) 0xFF6A = v &&& 0xBF) := by
  refine ⟨io_write_only_reads s,
    ⟨io_nr52_low_bits s, io_nr52_bit7 s v hv⟩,
    fun hspu => ⟨io_rw_nr10 s v hv hspu, io_rw_nr11 s v hv hspu, io_rw_nr12 s v hspu,
      io_rw_nr14 s v hv hspu, io_rw_nr21 s v hv hspu, io_rw_nr22 s v hspu,
      io_rw_nr24 s v hv hspu, io_rw_nr30 s v hv hspu, io_rw_nr31 s v hspu,
      io_rw_nr32 s v hv hspu, io_rw_nr34 s v hv hspu, io_rw_nr42 s v hspu,
      io_rw_nr43 s v hspu, io_rw_nr44 s v hv hspu, io_rw_nr50 s v hspu,
      io_rw_nr51 s v hspu⟩,
    ⟨io_rw_if_reg s v, io_rw_ie s v, io_rw_div s v, io_rw_tima s v, io_rw_tma s v,
      io_rw_tac s v hv, io_rw_lcdc s v hv, io_rw_scroll_y s v, io_rw_scroll_x s v,
      io_rw_lyc s v, io_rw_bgp s v, io_rw_obp0 s v, io_rw_obp1 s v,
      io_rw_window_y s v, io_rw_window_x s v⟩,
    fun hmaster => io_rw_stat s v hv hmaster,
    fun hgbc => ⟨io_rw_vbk s v hv hgbc, io_rw_svbk s v hgbc,
      io_rw_bcps s v hv hgbc, io_rw_ocps s v hv hgbc⟩⟩

/-- Witness for C9 amended: on the concrete reset state, NR12 reads
back the written byte 0x5A, NR13 reads 0xFF and VBK forces its upper
bits. -/
theorem io_readback_spec_witness :
    io_read (io_write io0 0xFF12 0x5A) 0xFF12 = 0x5A ∧
      io_read io0 0xFF13 = 0xFF ∧
      io_read (io_write io0 0xFF4F 0x5A) 0xFF4F = (0x5A &&& 1) ||| 0xFE := by
  have h := io_readback_spec io0 0x5A (by norm_num)
  exact ⟨(h.2.2.1 rfl).2.2.1, h.1.1, (h.2.2.2.2.2 rfl).1⟩

end GameBoyC
